import Mathlib

/-!
# Verification of the Facebook Ads MCP server's normalization and pagination layer

This file gives a shallow embedding, in Lean 4, of the core logic of
`server.py`: Python JSON-like values, the parameter normalizer
(`_prepare_params`, `_build_insights_params`), the identifier resolver
(`_normalize_act_id`, `_resolve_act_id`, `_get_default_ad_account`,
`_ensure_default_ad_account_from_config_sources`), the token cache
(`_get_fb_access_token`, `set_access_token`) and the pagination drain
loops inside `list_ad_accounts` and `get_adaccount_insights`.

Remote HTTP traffic is modelled by oracles: `api : String → Params → Except Err JVal`
stands for `_make_graph_api_call`, and `pagFetch : JVal → Except Err JVal` stands
for `fetch_pagination_url`.  Mutable module globals (`FB_ACCESS_TOKEN`,
`CONFIG_CACHE`, `DEFAULT_AD_ACCOUNT`) become an explicit `ServerState` record
threaded through the definitions; `os.environ`, `sys.argv` and `json.loads`
become an explicit read-only `EnvCtx`.  The unbounded `while next_url:` loops
are modelled with a fuel parameter; theorems about draining supply enough fuel
for the (finite) page chain under consideration.
-/

/-- Python/JSON-like dynamic values.  Objects are insertion-ordered key/value
lists, mirroring Python dicts (whose keys are unique in practice). -/
inductive JVal where
  | null : JVal
  | bool : Bool → JVal
  | num : Int → JVal
  | str : String → JVal
  | arr : List JVal → JVal
  | obj : List (String × JVal) → JVal

namespace JVal

mutual

/-- Structural equality test for `JVal` (Python `==` on these shapes). -/
def beq : JVal → JVal → Bool
  | .arr p, .arr q => beqList p q
  | .obj p, .obj q => beqFields p q
  | .bool p, .bool q => p == q
  | .num p, .num q => p == q
  | .str p, .str q => p == q
  | .null, .null => true
  | _, _ => false

/-- Elementwise equality of value lists. -/
def beqList : List JVal → List JVal → Bool
  | u :: l₁, v :: l₂ => beq u v && beqList l₁ l₂
  | l₁, l₂ => l₁.isEmpty && l₂.isEmpty

/-- Elementwise equality of key/value lists. -/
def beqFields : List (String × JVal) → List (String × JVal) → Bool
  | (p, u) :: l₁, (q, v) :: l₂ => p == q && (beq u v && beqFields l₁ l₂)
  | l₁, l₂ => l₁.isEmpty && l₂.isEmpty

end

instance : BEq JVal := ⟨beq⟩

mutual

theorem beq_iff_eq : ∀ a b : JVal, beq a b = true ↔ a = b
  | .arr p, .arr q => by simp [beq, beqList_iff_eq p q]
  | .obj p, .obj q => by simp [beq, beqFields_iff_eq p q]
  | .bool _, .bool _ => by simp [beq]
  | .num _, .num _ => by simp [beq]
  | .str _, .str _ => by simp [beq]
  | .null, .null => by simp [beq]
  | .null, .bool _ | .null, .num _ | .null, .str _ | .null, .arr _ | .null, .obj _
  | .bool _, .null | .bool _, .num _ | .bool _, .str _ | .bool _, .arr _ | .bool _, .obj _
  | .num _, .null | .num _, .bool _ | .num _, .str _ | .num _, .arr _ | .num _, .obj _
  | .str _, .null | .str _, .bool _ | .str _, .num _ | .str _, .arr _ | .str _, .obj _
  | .arr _, .null | .arr _, .bool _ | .arr _, .num _ | .arr _, .str _ | .arr _, .obj _
  | .obj _, .null | .obj _, .bool _ | .obj _, .num _ | .obj _, .str _ | .obj _, .arr _ => by
    simp [beq]

theorem beqList_iff_eq : ∀ l₁ l₂ : List JVal, beqList l₁ l₂ = true ↔ l₁ = l₂
  | u :: l₁, v :: l₂ => by
    simp [beqList, beq_iff_eq u v, beqList_iff_eq l₁ l₂]
  | [], l₂ => by cases l₂ <;> simp [beqList]
  | _ :: _, [] => by simp [beqList]

theorem beqFields_iff_eq :
    ∀ l₁ l₂ : List (String × JVal), beqFields l₁ l₂ = true ↔ l₁ = l₂
  | (p, u) :: l₁, (q, v) :: l₂ => by
    simp [beqFields, beq_iff_eq u v, beqFields_iff_eq l₁ l₂, Prod.ext_iff, and_assoc]
  | [], l₂ => by cases l₂ <;> simp [beqFields]
  | _ :: _, [] => by simp [beqFields]

end

instance : LawfulBEq JVal where
  eq_of_beq h := (beq_iff_eq _ _).mp h
  rfl := (beq_iff_eq _ _).mpr rfl

instance : DecidableEq JVal := fun a b =>
  decidable_of_iff (beq a b = true) (beq_iff_eq a b)

/-- Python truthiness on JSON-like values: `None`, `False`, `0`, `""`, `[]`
and the empty dict are falsy, everything else truthy. -/
def truthy : JVal → Bool
  | .null => false
  | .bool b => b
  | .num n => n != 0
  | .str s => s != ""
  | .arr xs => !xs.isEmpty
  | .obj kvs => !kvs.isEmpty

end JVal

/-! ## Python string helpers -/

/-- The whitespace characters removed by Python's `str.strip()` (ASCII subset). -/
def isPyWs (c : Char) : Bool :=
  c = ' ' || c = '\t' || c = '\n' || c = '\r' || c = '\x0b' || c = '\x0c'

/-- Python `str.strip()` on the character list: drop whitespace from both ends. -/
def stripChars (l : List Char) : List Char :=
  (((l.dropWhile isPyWs).reverse).dropWhile isPyWs).reverse

/-- Python `str.strip()`. -/
def pyStrip (s : String) : String :=
  String.mk (stripChars s.data)

/-- Python `str.startswith(p)`. -/
def strStarts (s p : String) : Bool :=
  p.data.isPrefixOf s.data

/-- Escape a string for JSON output (quote and backslash; enough for the
plain identifiers and dates this server serializes). -/
def jEscape (s : String) : String :=
  String.mk (s.data.flatMap fun c =>
    if c = '\"' then ['\\', '\"'] else if c = '\\' then ['\\', '\\'] else [c])

mutual

/-- Serialization matching `json.dumps` with its default separators, modelled on `JVal`. -/
def jdump : JVal → String
  | .null => "null"
  | .bool true => "true"
  | .bool false => "false"
  | .num n => toString n
  | .str s => "\"" ++ jEscape s ++ "\""
  | .arr xs => "[" ++ jdumpList xs ++ "]"
  | .obj kvs => "\x7b" ++ jdumpFields kvs ++ "\x7d"

/-- Serialize array elements, `", "`-separated. -/
def jdumpList : List JVal → String
  | [] => ""
  | [x] => jdump x
  | x :: xs => jdump x ++ ", " ++ jdumpList xs

/-- Serialize object entries, `", "`-separated with `": "` after each key. -/
def jdumpFields : List (String × JVal) → String
  | [] => ""
  | [(k, v)] => "\"" ++ jEscape k ++ "\": " ++ jdump v
  | (k, v) :: kvs => "\"" ++ jEscape k ++ "\": " ++ jdump v ++ ", " ++ jdumpFields kvs

end

/-- Python `str(...)` conversion.  Exact for the scalar shapes the server
actually converts (`str`, `int`, `bool`, `None`); for containers (which no
code path in the claims converts) Python's `repr` is approximated by JSON
serialization. -/
def pyStr : JVal → String
  | .str s => s
  | .num n => toString n
  | .bool true => "True"
  | .bool false => "False"
  | .null => "None"
  | .arr xs => jdump (.arr xs)
  | .obj kvs => jdump (.obj kvs)

/-! ## Ordered dictionaries (Python `dict` as an insertion-ordered assoc list) -/

/-- Wire parameter mappings and Python dict bodies. -/
abbrev Params := List (String × JVal)

/-- Assignment `d[k] = v` on a Python dict: replace in place when the key exists,
append otherwise. -/
def pset (ps : Params) (k : String) (v : JVal) : Params :=
  match ps with
  | [] => [(k, v)]
  | (k₁, v₁) :: rest => if k₁ = k then (k, v) :: rest else (k₁, v₁) :: pset rest k v

/-- Removal `d.pop(k, None)`: remove the entry with key `k` (dict keys are unique
at the call sites, so removing the first occurrence is exact). -/
def removeKey (ps : Params) (k : String) : Params :=
  match ps with
  | [] => []
  | (k₁, v₁) :: rest => if k₁ = k then rest else (k₁, v₁) :: removeKey rest k

/-- Look a key up in an object-shaped value; `none` when the value is not an
object or the key is missing. -/
def objGet? (v : JVal) (k : String) : Option JVal :=
  match v with
  | .obj kvs => kvs.lookup k
  | _ => none

/-- Lookup `d.get(k)` on a value known to be a dict: `None` when missing. -/
def objGet (v : JVal) (k : String) : JVal :=
  (objGet? v k).getD .null

/-- Assignment `d[k] = v` inside an object-shaped value (no-op on non-objects; every
call site has already checked the shape). -/
def objSet (v : JVal) (k : String) (w : JVal) : JVal :=
  match v with
  | .obj kvs => .obj (pset kvs k w)
  | _ => v

/-! ## Errors, calls, environment and server state -/

/-- The failure kinds the embedded code can raise. -/
inductive Err where
  /-- Python `ValueError(msg)`. -/
  | valueError : String → Err
  /-- Python bare `Exception(msg)` (CLI-flag misconfiguration, missing token). -/
  | exceptionErr : String → Err
  /-- Python `TypeError` (joining non-strings, `list()` of a non-iterable). -/
  | typeError : Err
  /-- Python `AttributeError` (`.get` on a non-dict response). -/
  | attributeError : Err
  /-- A failure reported by the HTTP oracle (`requests` exception). -/
  | httpError : Err
  /-- Out of modelling fuel: the Python loop would keep iterating. -/
  | outOfFuel : Err
deriving DecidableEq

/-- One observable remote interaction. -/
inductive Call where
  /-- A `_make_graph_api_call(url, params)` request. -/
  | api : String → Params → Call
  /-- A `fetch_pagination_url(url)` request. -/
  | page : JVal → Call
deriving DecidableEq

/-- Read-only process context: command line, environment variables and the
JSON decoder used for `MCP_CONFIG`. -/
structure EnvCtx where
  argv : List String
  osenv : String → Option String
  parseJson : String → Option JVal

/-- The module-level mutable globals of `server.py`. -/
structure ServerState where
  /-- Global `FB_ACCESS_TOKEN` (`none` is Python `None`). -/
  fb_access_token : Option JVal
  /-- Global `CONFIG_CACHE`. -/
  config_cache : Option JVal
  /-- Global `DEFAULT_AD_ACCOUNT`. -/
  default_ad_account : Option JVal

/-- Truthiness of an optional global (`if FB_ACCESS_TOKEN:`). -/
def truthyOpt : Option JVal → Bool
  | none => false
  | some v => v.truthy

/-- Constant `FB_API_VERSION`. -/
def FB_API_VERSION : String := "v22.0"

/-- Constant `FB_GRAPH_URL`. -/
def FB_GRAPH_URL : String := "https://graph.facebook.com/" ++ FB_API_VERSION

/-! ## Identifier normalization (`_normalize_act_id`) -/

/-- The normalization applied once the stripped id is known non-empty:
prefix with `act_` unless already present. -/
def normalize_core (s : String) : String :=
  if strStarts (pyStrip s) "act_" then pyStrip s else "act_" ++ pyStrip s

/-- Embeds `_normalize_act_id`: `str(act_id).strip()`, error on empty, else ensure
the `act_` prefix. -/
def normalize_act_id (act_id : JVal) : Except Err String :=
  if pyStrip (pyStr act_id) = "" then
    .error (.valueError "Ad account ID cannot be empty.")
  else
    .ok (normalize_core (pyStr act_id))

/-! ## Default ad-account cache (`_set_default_ad_account`) -/

/-- Embeds `_set_default_ad_account`: store `{'id': normalized, 'name': stripped?}`,
refusing non-string or whitespace-only ids. -/
def set_default_ad_account (st : ServerState) (act_id : JVal) (act_name : JVal) :
    Bool × ServerState :=
  match act_id with
  | .str s =>
    if pyStrip s = "" then (false, st)
    else
      let d : Params := [("id", .str (normalize_core s))]
      let d :=
        match act_name with
        | .str n => if pyStrip n = "" then d else d ++ [("name", .str (pyStrip n))]
        | _ => d
      (true, { st with default_ad_account := some (.obj d) })
  | _ => (false, st)

/-! ## Configuration loading (`_load_config_from_env`) -/

/-- Embeds `_load_config_from_env`: memoize the decoded `MCP_CONFIG` environment
variable; a missing/empty variable or malformed JSON yields the empty dict. -/
def load_config_from_env (env : EnvCtx) (st : ServerState) : JVal × ServerState :=
  match st.config_cache with
  | some c => (c, st)
  | none =>
    match env.osenv "MCP_CONFIG" with
    | none => (.obj [], { st with config_cache := some (.obj []) })
    | some raw =>
      if raw = "" then (.obj [], { st with config_cache := some (.obj []) })
      else
        match env.parseJson raw with
        | some v => (v, { st with config_cache := some v })
        | none => (.obj [], { st with config_cache := some (.obj []) })

/-! ## Token cache (`_ensure_fb_token_from_config`, `_get_fb_access_token`) -/

/-- Embeds `_ensure_fb_token_from_config`: adopt `config["fbToken"]` when the cached
token is falsy and the config carries a truthy value. -/
def ensure_fb_token_from_config (env : EnvCtx) (st : ServerState) : Bool × ServerState :=
  if truthyOpt st.fb_access_token then (true, st)
  else
    let (config, st) := load_config_from_env env st
    let token :=
      match config with
      | .obj kvs => (kvs.lookup "fbToken").getD .null
      | _ => .null
    if token.truthy then (true, { st with fb_access_token := some token })
    else (false, st)

/-- Embeds `_get_fb_access_token`: cached token, else MCP config, else the
`--fb-token` command-line flag; error when no source provides one. -/
def get_fb_access_token (env : EnvCtx) (st : ServerState) :
    Except Err (JVal × ServerState) :=
  match st.fb_access_token with
  | some tok => .ok (tok, st)
  | none =>
    let (found, st) := ensure_fb_token_from_config env st
    if found then .ok ((st.fb_access_token).getD .null, st)
    else if env.argv.contains "--fb-token" then
      let i := env.argv.indexOf "--fb-token" + 1
      if h : i < env.argv.length then
        let tok : JVal := .str (env.argv.get ⟨i, h⟩)
        .ok (tok, { st with fb_access_token := some tok })
      else .error (.exceptionErr "--fb-token argument provided but no token value followed it")
    else .error (.exceptionErr "Facebook token must be provided via '--fb-token' command line argument")

/-! ## Config-source candidate extraction
(`_ensure_default_ad_account_from_config_sources`) -/

/-- The recognized id aliases, in lookup order. -/
def actIdAliases : List String :=
  ["defaultActId", "actId", "default_ad_account_id", "facebook_ad_account_id"]

/-- The recognized name aliases, in lookup order. -/
def actNameAliases : List String :=
  ["defaultActName", "actName", "default_ad_account_name", "facebook_ad_account_name"]

/-- First alias whose value is a string with non-empty strip, stripped. -/
def firstStrAlias (kvs : Params) : List String → Option String
  | [] => none
  | k :: ks =>
    match kvs.lookup k with
    | some (.str s) => if pyStrip s = "" then firstStrAlias kvs ks else some (pyStrip s)
    | _ => firstStrAlias kvs ks

/-- Embeds `_extract_from_mapping`: fill the still-missing candidate id and name
from a mapping's alias fields (non-dicts contribute nothing). -/
def extract_from_mapping (cid cname : Option String) (mapping : JVal) :
    Option String × Option String :=
  match mapping with
  | .obj kvs =>
    (if cid.isNone then firstStrAlias kvs actIdAliases else cid,
     if cname.isNone then firstStrAlias kvs actNameAliases else cname)
  | _ => (cid, cname)

/-- The candidate pair produced from the decoded configuration: top level
first, then its `user_config` sub-mapping. -/
def configCandidates (config : JVal) : Option String × Option String :=
  let (cid, cname) := extract_from_mapping none none config
  match config with
  | .obj kvs => extract_from_mapping cid cname ((kvs.lookup "user_config").getD .null)
  | _ => (cid, cname)

/-- Embeds `_ensure_default_ad_account_from_config_sources`: populate the default
ad account from MCP config aliases, then the `FB_DEFAULT_ACT_ID`/`NAME`
environment pair, then the `--default-act-id`/`--default-act-name` flags
(raising when a flag has no following value). -/
def ensure_default_ad_account_from_config_sources (env : EnvCtx) (st : ServerState) :
    Except Err (Bool × ServerState) :=
  if st.default_ad_account.isSome then .ok (true, st)
  else
    let (config, st) := load_config_from_env env st
    let (cid, cname) := configCandidates config
    let (cid, cname) :=
      if cid.isNone then
        match env.osenv "FB_DEFAULT_ACT_ID" with
        | some e =>
          if pyStrip e = "" then (cid, cname)
          else
            (some (pyStrip e),
             match env.osenv "FB_DEFAULT_ACT_NAME" with
             | some n => if pyStrip n = "" then cname else some (pyStrip n)
             | none => cname)
        | none => (cid, cname)
      else (cid, cname)
    match
      (if cid.isNone && env.argv.contains "--default-act-id" then
        let i := env.argv.indexOf "--default-act-id" + 1
        if h : i < env.argv.length then
          let cid := some (env.argv.get ⟨i, h⟩)
          if env.argv.contains "--default-act-name" then
            let j := env.argv.indexOf "--default-act-name" + 1
            if h₂ : j < env.argv.length then .ok (cid, some (env.argv.get ⟨j, h₂⟩))
            else .error (Err.exceptionErr "--default-act-name argument provided but no value followed it")
          else .ok (cid, cname)
        else .error (Err.exceptionErr "--default-act-id argument provided but no value followed it")
      else .ok (cid, cname) : Except Err (Option String × Option String)) with
    | .error e => .error e
    | .ok (cid, cname) =>
      match cid with
      | some c =>
        if c = "" then .ok (false, st)
        else
          let nameV : JVal := match cname with | some n => .str n | none => .null
          .ok (set_default_ad_account st (.str c) nameV)
      | none => .ok (false, st)

/-! ## Remote default-account resolution (`_get_default_ad_account`) -/

/-- The first entry of `result["adaccounts"]["data"]`, when that structure is
present and list-shaped (`adaccounts` must be a dict, `data` a list). -/
def remoteFirstAccount (result : JVal) : Option JVal :=
  match objGet? result "adaccounts" with
  | some (.obj skvs) =>
    match skvs.lookup "data" with
    | some (.arr (first :: _)) => some first
    | _ => none
  | _ => none

/-- The id the remote branch resolves from the first account: the `id` field
when truthy, else `act_`-prefixed `str(account_id)` when that is truthy,
else `None`.  Non-dict first accounts resolve nothing. -/
def remoteResolvedId (result : JVal) : JVal :=
  match remoteFirstAccount result with
  | some (.obj fkvs) =>
    let rid := (fkvs.lookup "id").getD .null
    if rid.truthy then rid
    else
      let aid := (fkvs.lookup "account_id").getD .null
      if aid.truthy then
        let s := pyStr aid
        .str (if strStarts s "act_" then s else "act_" ++ s)
      else .null
  | _ => .null

/-- The `name` field of the first account (read only when an id resolved,
at which point the first account is known to be a dict). -/
def remoteFirstName (result : JVal) : JVal :=
  match remoteFirstAccount result with
  | some (.obj fkvs) => (fkvs.lookup "name").getD .null
  | _ => .null

/-- The query parameters of the remote `limit(1)` default-account lookup. -/
def defaultAccountParams (tok : JVal) : Params :=
  [("access_token", tok),
   ("fields", .str "adaccounts.limit(1)\x7bid,account_id,name\x7d")]

/-- Embeds `_get_default_ad_account`: cached value, else config/env/CLI sources,
else one remote `me?fields=adaccounts.limit(1){...}` call; error when no
source yields an account.  Also returns the remote calls performed. -/
def get_default_ad_account (env : EnvCtx) (api : String → Params → Except Err JVal)
    (st : ServerState) (force_refresh : Bool) :
    Except Err (JVal × ServerState × List Call) := do
  let st := if force_refresh then { st with default_ad_account := none } else st
  let st ←
    if st.default_ad_account.isNone then do
      let (_, st) ← ensure_default_ad_account_from_config_sources env st
      pure st
    else pure st
  match st.default_ad_account with
  | some acc => .ok (acc, st, [])
  | none => do
    let (tok, st) ← get_fb_access_token env st
    let url := FB_GRAPH_URL ++ "/me"
    let params := defaultAccountParams tok
    match api url params with
    | .error e => .error e
    | .ok result =>
      match result with
      | .obj _ =>
        let rid := remoteResolvedId result
        let st ←
          if rid.truthy then do
            let nid ← normalize_act_id rid
            let acc := JVal.obj [("id", .str nid), ("name", remoteFirstName result)]
            pure { st with default_ad_account := some acc }
          else pure st
        match st.default_ad_account with
        | some acc => .ok (acc, st, [Call.api url params])
        | none => .error (.valueError "Unable to automatically determine a default ad account. Please specify an 'act_id'.")
      | _ => .error .attributeError

/-- Embeds `_resolve_act_id`: normalize an explicit id, or fall back to the cached
default ad account's id. -/
def resolve_act_id (env : EnvCtx) (api : String → Params → Except Err JVal)
    (st : ServerState) (act_id : JVal) :
    Except Err (JVal × ServerState × List Call) :=
  if act_id.truthy then do
    let nid ← normalize_act_id act_id
    .ok (.str nid, st, [])
  else do
    let (acc, st, calls) ← get_default_ad_account env api st false
    let rid := match acc with | .obj _ => objGet acc "id" | _ => JVal.null
    if rid.truthy then .ok (rid, st, calls)
    else .error (.valueError "Unable to determine ad account ID. Provide 'act_id' explicitly.")

/-! ## Parameter normalizer (`_prepare_params`) -/

/-- Shape tests mirroring `isinstance(value, list)` / `isinstance(value, dict)`. -/
def JVal.isArr : JVal → Bool
  | .arr _ => true
  | _ => false

/-- Shape test `isinstance(value, dict)`. -/
def JVal.isObj : JVal → Bool
  | .obj _ => true
  | _ => false

/-- The elements of a list-shaped value (empty otherwise). -/
def JVal.elems : JVal → List JVal
  | .arr xs => xs
  | _ => []

/-- The keys whose structured values get JSON-encoded by `_prepare_params`. -/
def jsonEncodedKeys : List String :=
  ["filtering", "time_range", "time_ranges", "effective_status",
   "special_ad_categories", "objective", "buyer_guarantee_agreement_status"]

/-- The keys whose list values are comma-joined by `_prepare_params`. -/
def csvEncodedKeys : List String :=
  ["fields", "action_attribution_windows", "action_breakdowns", "breakdowns"]

/-- All elements as strings, or `none` if one is not a string. -/
def allStrings : List JVal → Option (List String)
  | [] => some []
  | .str s :: xs => (allStrings xs).map (s :: ·)
  | _ => none

/-- Python `','.join(xs)`: `TypeError` when an element is not a string. -/
def pyJoinComma (xs : List JVal) : Except Err String :=
  match allStrings xs with
  | some ss => .ok (String.intercalate "," ss)
  | none => .error .typeError

/-- The per-key encoding `_prepare_params` applies to one non-`None`
keyword value. -/
def transformParam (k : String) (v : JVal) : Except Err JVal :=
  if jsonEncodedKeys.contains k && (v.isArr || v.isObj) then .ok (.str (jdump v))
  else if k = "fields" && v.isArr then do pure (.str (← pyJoinComma v.elems))
  else if k = "action_attribution_windows" && v.isArr then do pure (.str (← pyJoinComma v.elems))
  else if k = "action_breakdowns" && v.isArr then do pure (.str (← pyJoinComma v.elems))
  else if k = "breakdowns" && v.isArr then do pure (.str (← pyJoinComma v.elems))
  else .ok v

/-- Embeds `_prepare_params`: start from a copy of the base mapping and fold the
keyword arguments in order, skipping `None` values and applying the per-key
encodings. -/
def prepare_params (base : Params) : List (String × JVal) → Except Err Params
  | [] => .ok base
  | (k, v) :: rest =>
    if v = .null then prepare_params base rest
    else
      match transformParam k v with
      | .error e => .error e
      | .ok w => prepare_params (pset base k w) rest

/-! ## Insights parameter builder (`_build_insights_params`) -/

/-- The keyword arguments of `_build_insights_params` (and of the insights
tools, which forward them unchanged).  All dynamically typed, as in Python. -/
structure InsightsArgs where
  fields : JVal := .null
  date_preset : JVal := .str "last_30d"
  time_range : JVal := .null
  time_ranges : JVal := .null
  time_increment : JVal := .str "all_days"
  level : JVal := .null
  action_attribution_windows : JVal := .null
  action_breakdowns : JVal := .null
  action_report_time : JVal := .null
  breakdowns : JVal := .null
  default_summary : JVal := .bool false
  use_account_attribution_setting : JVal := .bool false
  use_unified_attribution_setting : JVal := .bool true
  filtering : JVal := .null
  sort : JVal := .null
  limit : JVal := .null
  after : JVal := .null
  before : JVal := .null
  offset : JVal := .null
  since : JVal := .null
  «until» : JVal := .null
  locale : JVal := .null

/-- The default arguments of the insights tools (`date_preset='last_30d'`,
`time_increment='all_days'`, `use_unified_attribution_setting=True`, all
else absent). -/
def defaultInsightsToolArgs : InsightsArgs := {}

/-- The time-window steps of `_build_insights_params`: `date_preset` only
when no time parameter is supplied, JSON-encoded `time_range`/`time_ranges`,
`time_increment` only when it differs from `'all_days'`, and `since`/`until`
only when no time-range form is supplied. -/
def applyTimeWindowParams (params : Params) (a : InsightsArgs) : Params :=
  let timeParamsProvided :=
    a.time_range.truthy || a.time_ranges.truthy || a.since.truthy || a.«until».truthy
  let params :=
    if !timeParamsProvided && a.date_preset.truthy then
      pset params "date_preset" a.date_preset
    else params
  let params :=
    if a.time_range.truthy then pset params "time_range" (.str (jdump a.time_range))
    else params
  let params :=
    if a.time_ranges.truthy then pset params "time_ranges" (.str (jdump a.time_ranges))
    else params
  let params :=
    if a.time_increment.truthy && a.time_increment ≠ .str "all_days" then
      pset params "time_increment" a.time_increment
    else params
  if !a.time_range.truthy && !a.time_ranges.truthy then
    let params := if a.since.truthy then pset params "since" a.since else params
    if a.«until».truthy then pset params "until" a.«until» else params
  else params

/-- The boolean-flag steps of `_build_insights_params`: emit `'true'` only
for truthy flags. -/
def applyBooleanFlags (params : Params) (a : InsightsArgs) : Params :=
  let params :=
    if a.default_summary.truthy then pset params "default_summary" (.str "true") else params
  let params :=
    if a.use_account_attribution_setting.truthy then
      pset params "use_account_attribution_setting" (.str "true")
    else params
  if a.use_unified_attribution_setting.truthy then
    pset params "use_unified_attribution_setting" (.str "true")
  else params

/-- Embeds `_build_insights_params`: generic normalization for the non-time keys,
then the insights-specific time-window precedence and boolean flags. -/
def build_insights_params (params : Params) (a : InsightsArgs) : Except Err Params := do
  let params ← prepare_params params
    [("fields", a.fields),
     ("level", a.level),
     ("action_attribution_windows", a.action_attribution_windows),
     ("action_breakdowns", a.action_breakdowns),
     ("action_report_time", a.action_report_time),
     ("breakdowns", a.breakdowns),
     ("filtering", a.filtering),
     ("sort", a.sort),
     ("limit", a.limit),
     ("after", a.after),
     ("before", a.before),
     ("offset", a.offset),
     ("locale", a.locale)]
  .ok (applyBooleanFlags (applyTimeWindowParams params a) a)

/-! ## `set_access_token` -/

/-- Embeds `set_access_token`: store the stripped token, clear the cached default
ad account, then optionally seed the cache from an explicit id/name pair. -/
def set_access_token (st : ServerState) (access_token act_id act_name : JVal) :
    Except Err (JVal × ServerState) :=
  match access_token with
  | .str s =>
    if pyStrip s = "" then
      .error (.valueError "A non-empty Facebook access token must be provided.")
    else
      let st := { st with fb_access_token := some (.str (pyStrip s)),
                          default_ad_account := none }
      let st := if act_id.truthy then (set_default_ad_account st act_id act_name).2 else st
      let resp : Params := [("status", .str "success"), ("access_token_configured", .bool true)]
      let resp :=
        match st.default_ad_account with
        | some d => if d.truthy then resp ++ [("default_ad_account", d)] else resp
        | none => resp
      .ok (.obj resp, st)
  | _ => .error (.valueError "A non-empty Facebook access token must be provided.")

/-! ## Pagination drain -/

/-- The rows one fetched page contributes: its `data` when list-shaped,
nothing otherwise (non-dict pages contribute nothing at this step). -/
def pageData (page : JVal) : List JVal :=
  match page with
  | .obj kvs =>
    match kvs.lookup "data" with
    | some (.arr xs) => xs
    | _ => []
  | _ => []

/-- Cursor read `page.get('paging', {}).get('next') if isinstance(page.get('paging'), dict)
else None`; `.get` on a non-dict page raises `AttributeError`. -/
def pageNext (page : JVal) : Except Err JVal :=
  match page with
  | .obj kvs =>
    match kvs.lookup "paging" with
    | some (.obj pkvs) => .ok ((pkvs.lookup "next").getD .null)
    | _ => .ok .null
  | _ => .error .attributeError

/-- The `while next_url:` drain loop shared by `list_ad_accounts` and
`get_adaccount_insights`: fetch, append list-shaped `data`, read the new
`paging.next`, repeat.  `fuel` bounds the modelled iterations. -/
def drainLoop (pagFetch : JVal → Except Err JVal) :
    Nat → List JVal → JVal → Except Err (List JVal)
  | 0, acc, next => if next.truthy then .error .outOfFuel else .ok acc
  | fuel + 1, acc, next =>
    if next.truthy then
      match pagFetch next with
      | .error e => .error e
      | .ok page =>
        match pageNext page with
        | .error e => .error e
        | .ok nxt => drainLoop pagFetch fuel (acc ++ pageData page) nxt
    else .ok acc

/-- Drop the stale `next`/`previous` cursors from an envelope's `paging`
dict, when there is one. -/
def stripNextPrev (envl : JVal) : JVal :=
  match objGet? envl "paging" with
  | some (.obj pkvs) =>
    objSet envl "paging" (.obj (removeKey (removeKey pkvs "next") "previous"))
  | _ => envl

/-- Python `list(x)`: copy a list, take a dict's keys, split a string into
characters; `TypeError` on non-iterables. -/
def pyList : JVal → Except Err (List JVal)
  | .arr xs => .ok xs
  | .obj kvs => .ok (kvs.map fun kv => .str kv.1)
  | .str s => .ok (s.data.map fun c => .str (String.mk [c]))
  | _ => .error .typeError

/-- The id used for de-duplication: `account.get('id')` for dicts, `None`
otherwise. -/
def accountId (account : JVal) : JVal :=
  match account with
  | .obj kvs => (kvs.lookup "id").getD .null
  | _ => .null

/-- The `seen_ids` de-duplication loop of `list_ad_accounts`: skip a record
whose truthy id was seen before; records with falsy ids are always kept. -/
def dedupAccounts (seen : List JVal) : List JVal → List JVal
  | [] => []
  | account :: rest =>
    let aid := accountId account
    if aid.truthy && seen.contains aid then dedupAccounts seen rest
    else if aid.truthy then account :: dedupAccounts (aid :: seen) rest
    else account :: dedupAccounts seen rest

/-! ## The draining tools -/

/-- Embeds `list_ad_accounts`: fetch `me?fields=adaccounts{name}`, drain the
`adaccounts` envelope's pagination, de-duplicate by id, strip the stale
cursors, and return the whole response with the envelope updated. -/
def list_ad_accounts (env : EnvCtx) (api : String → Params → Except Err JVal)
    (pagFetch : JVal → Except Err JVal) (fuel : Nat) (st : ServerState) :
    Except Err (JVal × ServerState) := do
  let (tok, st) ← get_fb_access_token env st
  let url := FB_GRAPH_URL ++ "/me"
  let params : Params := [("access_token", tok), ("fields", .str "adaccounts\x7bname\x7d")]
  match api url params with
  | .error e => .error e
  | .ok result =>
    match result with
    | .obj _ =>
      let adaccounts_section := (objGet? result "adaccounts").getD .null
      match adaccounts_section with
      | .obj skvs => do
        let aggregated ← pyList ((skvs.lookup "data").getD (.arr []))
        let nxt ← pageNext adaccounts_section
        let rows ← drainLoop pagFetch fuel aggregated nxt
        let deduped := dedupAccounts [] rows
        let adaccounts_section := objSet adaccounts_section "data" (.arr deduped)
        let adaccounts_section := stripNextPrev adaccounts_section
        .ok (objSet result "adaccounts" adaccounts_section, st)
      | _ => .ok (result, st)
    | _ => .error .attributeError

/-- Embeds `get_adaccount_insights`: resolve the account id, build the insights
parameters, fetch the first page and drain the remaining ones, then return
the first-page envelope with `data` replaced and stale cursors removed. -/
def get_adaccount_insights (env : EnvCtx) (api : String → Params → Except Err JVal)
    (pagFetch : JVal → Except Err JVal) (fuel : Nat) (st : ServerState)
    (act_id : JVal) (a : InsightsArgs) : Except Err (JVal × ServerState) := do
  let (tok, st) ← get_fb_access_token env st
  let (eid, st, _) ← resolve_act_id env api st act_id
  let url := FB_GRAPH_URL ++ "/" ++ pyStr eid ++ "/insights"
  let params ← build_insights_params [("access_token", tok)] a
  match api url params with
  | .error e => .error e
  | .ok initial =>
    match initial with
    | .obj _ => do
      let allRows : List JVal := pageData initial
      let nxt ← pageNext initial
      let allRows ← drainLoop pagFetch fuel allRows nxt
      .ok (stripNextPrev (objSet initial "data" (.arr allRows)), st)
    | _ => .error .attributeError

/-! ## The single-page insights tools -/

/-- The request built by `get_campaign_insights` before its one API call:
level defaults to `'campaign'` when not supplied. -/
def campaign_insights_request (env : EnvCtx) (st : ServerState)
    (campaign_id : JVal) (a : InsightsArgs) :
    Except Err (String × Params × ServerState) := do
  let (tok, st) ← get_fb_access_token env st
  let url := FB_GRAPH_URL ++ "/" ++ pyStr campaign_id ++ "/insights"
  let effective_level := if a.level.truthy then a.level else .str "campaign"
  let params ← build_insights_params [("access_token", tok)] { a with level := effective_level }
  .ok (url, params, st)

/-- Embeds `get_campaign_insights`: build the request, perform one API call and
return its response as-is (no pagination drain in the source). -/
def get_campaign_insights (env : EnvCtx) (api : String → Params → Except Err JVal)
    (st : ServerState) (campaign_id : JVal) (a : InsightsArgs) :
    Except Err (JVal × ServerState × List Call) := do
  let (url, params, st) ← campaign_insights_request env st campaign_id a
  match api url params with
  | .error e => .error e
  | .ok page => .ok (page, st, [Call.api url params])

/-- The request built by `get_adset_insights`: level defaults to `'adset'`. -/
def adset_insights_request (env : EnvCtx) (st : ServerState)
    (adset_id : JVal) (a : InsightsArgs) :
    Except Err (String × Params × ServerState) := do
  let (tok, st) ← get_fb_access_token env st
  let url := FB_GRAPH_URL ++ "/" ++ pyStr adset_id ++ "/insights"
  let effective_level := if a.level.truthy then a.level else .str "adset"
  let params ← build_insights_params [("access_token", tok)] { a with level := effective_level }
  .ok (url, params, st)

/-- Embeds `get_adset_insights`: one API call, response returned as-is. -/
def get_adset_insights (env : EnvCtx) (api : String → Params → Except Err JVal)
    (st : ServerState) (adset_id : JVal) (a : InsightsArgs) :
    Except Err (JVal × ServerState × List Call) := do
  let (url, params, st) ← adset_insights_request env st adset_id a
  match api url params with
  | .error e => .error e
  | .ok page => .ok (page, st, [Call.api url params])

/-- The request built by `get_ad_insights`: level defaults to `'ad'`. -/
def ad_insights_request (env : EnvCtx) (st : ServerState)
    (ad_id : JVal) (a : InsightsArgs) :
    Except Err (String × Params × ServerState) := do
  let (tok, st) ← get_fb_access_token env st
  let url := FB_GRAPH_URL ++ "/" ++ pyStr ad_id ++ "/insights"
  let effective_level := if a.level.truthy then a.level else .str "ad"
  let params ← build_insights_params [("access_token", tok)] { a with level := effective_level }
  .ok (url, params, st)

/-- Embeds `get_ad_insights`: one API call, response returned as-is. -/
def get_ad_insights (env : EnvCtx) (api : String → Params → Except Err JVal)
    (st : ServerState) (ad_id : JVal) (a : InsightsArgs) :
    Except Err (JVal × ServerState × List Call) := do
  let (url, params, st) ← ad_insights_request env st ad_id a
  match api url params with
  | .error e => .error e
  | .ok page => .ok (page, st, [Call.api url params])

/-! ## Finite page chains

A `PageChain pagFetch next pages` witness says: starting from cursor value
`next`, the oracle serves exactly the (finite) list `pages`, each page's own
`paging.next` driving the next fetch, with the chain ending at the first
falsy cursor. -/

/-- Finite pagination chains served by the `fetch_pagination_url` oracle. -/
inductive PageChain (pagFetch : JVal → Except Err JVal) : JVal → List JVal → Prop where
  /-- A falsy cursor ends the chain. -/
  | last : ∀ next, next.truthy = false → PageChain pagFetch next []
  /-- A truthy cursor fetches one page and continues from its `paging.next`. -/
  | step : ∀ next page nxt rest, next.truthy = true → pagFetch next = .ok page →
      pageNext page = .ok nxt → PageChain pagFetch nxt rest →
      PageChain pagFetch next (page :: rest)

/-- Draining a finite chain yields the accumulator extended with every
page's list-shaped `data`, in fetch order. -/
theorem drainLoop_eq_of_chain (pagFetch : JVal → Except Err JVal) :
    ∀ {next : JVal} {pages : List JVal}, PageChain pagFetch next pages →
    ∀ (acc : List JVal) (fuel : Nat), pages.length ≤ fuel →
    drainLoop pagFetch fuel acc next = .ok (acc ++ (pages.map pageData).flatten) := by
  intro next pages h
  induction h with
  | last next hfalsy =>
    intro acc fuel _
    cases fuel with
    | zero => simp [drainLoop, hfalsy]
    | succ n => simp [drainLoop, hfalsy]
  | step next page nxt rest htruthy hfetch hnext _ ih =>
    intro acc fuel hfuel
    cases fuel with
    | zero => simp at hfuel
    | succ n =>
      have hn : rest.length ≤ n := by simpa using hfuel
      simp [drainLoop, htruthy, hfetch, hnext, ih (acc ++ pageData page) n hn,
        List.append_assoc]

/-! ## Dictionary lemmas -/

theorem lookup_pset_self (ps : Params) (k : String) (v : JVal) :
    (pset ps k v).lookup k = some v := by
  induction ps with
  | nil => simp [pset]
  | cons kv rest ih =>
    obtain ⟨k₁, v₁⟩ := kv
    by_cases h : k₁ = k
    · simp [pset, h]
    · rw [pset, if_neg h, List.lookup,
        show (k == k₁) = false from beq_eq_false_iff_ne.mpr (Ne.symm h)]
      exact ih

theorem lookup_pset_ne (ps : Params) (k k₂ : String) (v : JVal) (h : k₂ ≠ k) :
    (pset ps k v).lookup k₂ = ps.lookup k₂ := by
  induction ps with
  | nil =>
    simp [pset, List.lookup, show (k₂ == k) = false from beq_eq_false_iff_ne.mpr h]
  | cons kv rest ih =>
    obtain ⟨k₁, v₁⟩ := kv
    by_cases h₁ : k₁ = k
    · subst h₁
      rw [pset, if_pos rfl, List.lookup, List.lookup,
        show (k₂ == k₁) = false from beq_eq_false_iff_ne.mpr h]
    · rw [pset, if_neg h₁, List.lookup, List.lookup]
      by_cases h₂ : k₂ = k₁
      · rw [show (k₂ == k₁) = true from beq_iff_eq.mpr h₂]
      · rw [show (k₂ == k₁) = false from beq_eq_false_iff_ne.mpr h₂]
        exact ih

theorem lookup_removeKey_ne (ps : Params) (k k₂ : String) (h : k₂ ≠ k) :
    (removeKey ps k).lookup k₂ = ps.lookup k₂ := by
  induction ps with
  | nil => simp [removeKey]
  | cons kv rest ih =>
    obtain ⟨k₁, v₁⟩ := kv
    by_cases h₁ : k₁ = k
    · subst h₁
      rw [removeKey, if_pos rfl, List.lookup,
        show (k₂ == k₁) = false from beq_eq_false_iff_ne.mpr h]
    · rw [removeKey, if_neg h₁, List.lookup, List.lookup]
      by_cases h₂ : k₂ = k₁
      · rw [show (k₂ == k₁) = true from beq_iff_eq.mpr h₂]
      · rw [show (k₂ == k₁) = false from beq_eq_false_iff_ne.mpr h₂]
        exact ih

theorem lookup_eq_none_of_not_mem_keys (ps : Params) (k : String)
    (h : k ∉ ps.map Prod.fst) : ps.lookup k = none := by
  induction ps with
  | nil => simp
  | cons kv rest ih =>
    obtain ⟨k₁, v₁⟩ := kv
    simp only [List.map_cons, List.mem_cons, not_or] at h
    rw [List.lookup, show (k == k₁) = false from beq_eq_false_iff_ne.mpr h.1]
    exact ih h.2

theorem lookup_removeKey_self (ps : Params) (k : String)
    (hnd : (ps.map Prod.fst).Nodup) : (removeKey ps k).lookup k = none := by
  induction ps with
  | nil => simp [removeKey]
  | cons kv rest ih =>
    obtain ⟨k₁, v₁⟩ := kv
    simp only [List.map_cons, List.nodup_cons] at hnd
    by_cases h₁ : k₁ = k
    · subst h₁
      rw [removeKey, if_pos rfl]
      exact lookup_eq_none_of_not_mem_keys rest k₁ (by simpa using hnd.1)
    · rw [removeKey, if_neg h₁, List.lookup,
        show (k == k₁) = false from beq_eq_false_iff_ne.mpr (Ne.symm h₁)]
      exact ih hnd.2

theorem lookup_pset_isSome (ps : Params) (k k₂ : String) (v : JVal) :
    ((pset ps k v).lookup k₂).isSome ↔ (k₂ = k ∨ (ps.lookup k₂).isSome) := by
  by_cases h : k₂ = k
  · subst h
    simp [lookup_pset_self]
  · simp [lookup_pset_ne ps k k₂ v h, h]

/-! ## `_prepare_params` characterization -/

theorem prepare_params_lookup_of_not_mem :
    ∀ (kw : List (String × JVal)) (base out : Params),
    prepare_params base kw = .ok out →
    ∀ k, k ∉ kw.map Prod.fst → out.lookup k = base.lookup k := by
  intro kw
  induction kw with
  | nil =>
    intro base out hok k _
    simp only [prepare_params] at hok
    cases hok
    rfl
  | cons kv rest ih =>
    intro base out hok k hk
    obtain ⟨k₁, v₁⟩ := kv
    simp only [List.map_cons, List.mem_cons, not_or] at hk
    by_cases hnull : v₁ = JVal.null
    · rw [prepare_params, if_pos hnull] at hok
      exact ih base out hok k hk.2
    · rw [prepare_params, if_neg hnull] at hok
      cases htr : transformParam k₁ v₁ with
      | error e => rw [htr] at hok; cases hok
      | ok w =>
        rw [htr] at hok
        rw [ih (pset base k₁ w) out hok k hk.2]
        exact lookup_pset_ne base k₁ k w hk.1

theorem prepare_params_lookup_of_mem :
    ∀ (kw : List (String × JVal)) (base out : Params),
    prepare_params base kw = .ok out → (kw.map Prod.fst).Nodup →
    ∀ k v, (k, v) ∈ kw → v ≠ .null →
    ∃ w, transformParam k v = .ok w ∧ out.lookup k = some w := by
  intro kw
  induction kw with
  | nil =>
    intro base out _ _ k v hmem
    simp at hmem
  | cons kv rest ih =>
    intro base out hok hnd k v hmem hv
    obtain ⟨k₁, v₁⟩ := kv
    simp only [List.map_cons, List.nodup_cons] at hnd
    rcases List.mem_cons.mp hmem with hhead | htail
    · injection hhead with hk hv₁
      subst hk
      subst hv₁
      rw [prepare_params, if_neg hv] at hok
      cases htr : transformParam k v with
      | error e => rw [htr] at hok; cases hok
      | ok w =>
        rw [htr] at hok
        refine ⟨w, rfl, ?_⟩
        rw [prepare_params_lookup_of_not_mem rest (pset base k w) out hok k hnd.1]
        exact lookup_pset_self base k w
    · by_cases hnull : v₁ = JVal.null
      · rw [prepare_params, if_pos hnull] at hok
        exact ih base out hok hnd.2 k v htail hv
      · rw [prepare_params, if_neg hnull] at hok
        cases htr : transformParam k₁ v₁ with
        | error e => rw [htr] at hok; cases hok
        | ok w =>
          rw [htr] at hok
          exact ih (pset base k₁ w) out hok hnd.2 k v htail hv

theorem prepare_params_isSome_iff :
    ∀ (kw : List (String × JVal)) (base out : Params),
    prepare_params base kw = .ok out →
    ∀ k, (out.lookup k).isSome ↔
      ((base.lookup k).isSome ∨ ∃ v, (k, v) ∈ kw ∧ v ≠ JVal.null) := by
  intro kw
  induction kw with
  | nil =>
    intro base out hok k
    simp only [prepare_params] at hok
    cases hok
    simp
  | cons kv rest ih =>
    intro base out hok k
    obtain ⟨k₁, v₁⟩ := kv
    by_cases hnull : v₁ = JVal.null
    · rw [prepare_params, if_pos hnull] at hok
      rw [ih base out hok k]
      subst hnull
      constructor
      · rintro (hb | ⟨v, hv, hvn⟩)
        · exact Or.inl hb
        · exact Or.inr ⟨v, List.mem_cons_of_mem _ hv, hvn⟩
      · rintro (hb | ⟨v, hv, hvn⟩)
        · exact Or.inl hb
        · rcases List.mem_cons.mp hv with hh | ht
          · injection hh with h₁ h₂
            exact absurd h₂ hvn
          · exact Or.inr ⟨v, ht, hvn⟩
    · rw [prepare_params, if_neg hnull] at hok
      cases htr : transformParam k₁ v₁ with
      | error e => rw [htr] at hok; cases hok
      | ok w =>
        rw [htr] at hok
        rw [ih (pset base k₁ w) out hok k, lookup_pset_isSome]
        constructor
        · rintro ((hk | hb) | ⟨v, hv, hvn⟩)
          · exact Or.inr ⟨v₁, by simp [hk], hnull⟩
          · exact Or.inl hb
          · exact Or.inr ⟨v, List.mem_cons_of_mem _ hv, hvn⟩
        · rintro (hb | ⟨v, hv, hvn⟩)
          · exact Or.inl (Or.inr hb)
          · rcases List.mem_cons.mp hv with hh | ht
            · injection hh with h₁ h₂
              exact Or.inl (Or.inl h₁)
            · exact Or.inr ⟨v, ht, hvn⟩

/-! ## `strip()` lemmas -/

theorem dropWhile_cons_eq_false {α : Type} {p : α → Bool} :
    ∀ {x : List α} {y : α} {ys : List α}, x.dropWhile p = y :: ys → p y = false := by
  intro x
  induction x with
  | nil => intro y ys h; cases h
  | cons a as ih =>
    intro y ys h
    by_cases hp : p a
    · rw [List.dropWhile_cons_of_pos hp] at h
      exact ih h
    · rw [List.dropWhile_cons_of_neg hp] at h
      injection h with h₁ _
      subst h₁
      simpa using hp

theorem dropWhile_eq_self_of_head {α : Type} {p : α → Bool} {y : α} {ys : List α}
    (h : p y = false) : (y :: ys).dropWhile p = y :: ys :=
  List.dropWhile_cons_of_neg (by simp [h])

theorem stripChars_prefix_dropWhile (l : List Char) :
    stripChars l <+: l.dropWhile isPyWs := by
  have h : ((l.dropWhile isPyWs).reverse.dropWhile isPyWs) <:+ (l.dropWhile isPyWs).reverse :=
    List.dropWhile_suffix isPyWs
  have := List.reverse_prefix.mpr h
  simpa [stripChars] using this

theorem stripChars_front (l : List Char) :
    (stripChars l).dropWhile isPyWs = stripChars l := by
  cases hs : stripChars l with
  | nil => simp
  | cons y ys =>
    have hpre := stripChars_prefix_dropWhile l
    rw [hs] at hpre
    obtain ⟨t, ht⟩ := hpre
    have hy : isPyWs y = false := dropWhile_cons_eq_false (x := l) ht.symm
    exact dropWhile_eq_self_of_head hy

theorem stripChars_back (l : List Char) :
    (stripChars l).reverse.dropWhile isPyWs = (stripChars l).reverse := by
  have hrev : (stripChars l).reverse = (l.dropWhile isPyWs).reverse.dropWhile isPyWs := by
    simp [stripChars]
  rw [hrev]
  cases hb : (l.dropWhile isPyWs).reverse.dropWhile isPyWs with
  | nil => simp
  | cons y ys =>
    have hy : isPyWs y = false := dropWhile_cons_eq_false hb
    exact dropWhile_eq_self_of_head hy

theorem stripChars_eq_self {l : List Char} (hfront : l.dropWhile isPyWs = l)
    (hback : l.reverse.dropWhile isPyWs = l.reverse) : stripChars l = l := by
  rw [stripChars, hfront, hback, List.reverse_reverse]

theorem stripChars_idem (l : List Char) : stripChars (stripChars l) = stripChars l :=
  stripChars_eq_self (stripChars_front l) (stripChars_back l)

theorem pyStrip_idem (s : String) : pyStrip (pyStrip s) = pyStrip s := by
  apply String.ext
  simp [pyStrip, stripChars_idem]

theorem pyStrip_act_append {s : String} (h : pyStrip s ≠ "") :
    pyStrip ("act_" ++ pyStrip s) = "act_" ++ pyStrip s := by
  apply String.ext
  have hdata : ("act_" ++ pyStrip s).data = "act_".data ++ (pyStrip s).data :=
    String.data_append "act_" (pyStrip s)
  rw [pyStrip, hdata]
  have hr : (pyStrip s).data = stripChars s.data := rfl
  have hne : stripChars s.data ≠ [] := by
    intro hnil
    apply h
    apply String.ext
    rw [hr, hnil]
  apply stripChars_eq_self
  · rw [show ("act_".data ++ (pyStrip s).data) = 'a' :: ("ct_".data ++ (pyStrip s).data) from rfl]
    exact dropWhile_eq_self_of_head (by decide)
  · have hback := stripChars_back s.data
    rw [List.reverse_append, hr]
    cases hrv : (stripChars s.data).reverse with
    | nil =>
      exact absurd (by simpa using hrv) hne
    | cons z zs =>
      have hz : isPyWs z = false := by
        rw [hrv] at hback
        exact dropWhile_cons_eq_false (x := z :: zs) hback
      rw [List.cons_append]
      exact dropWhile_eq_self_of_head hz

theorem strStarts_act_append (r : String) : strStarts ("act_" ++ r) "act_" = true := by
  rw [strStarts, String.data_append, List.isPrefixOf_iff_prefix]
  exact List.prefix_append _ _

theorem ne_empty_of_strStarts_act {t : String} (h : strStarts t "act_" = true) : t ≠ "" := by
  intro hempty
  subst hempty
  rw [strStarts, List.isPrefixOf_iff_prefix] at h
  have := h.length_le
  simp at this

theorem act_append_ne_empty (r : String) : "act_" ++ r ≠ "" :=
  ne_empty_of_strStarts_act (strStarts_act_append r)

/-! ## Claim C8: account-id normalization -/

/-- Claim C8: for every string whose trimmed value is non-empty,
`_normalize_act_id` returns the whitespace-stripped string prefixed with
`act_` when that prefix is absent, and returns an already `act_`-prefixed
trimmed string identically; normalization is idempotent (normalizing its
own output yields the identical string); a string with empty trim fails
with a `ValueError` (the `InvalidArgument` error). -/
theorem claim_C8 (s : String) :
    (pyStrip s ≠ "" →
      normalize_act_id (.str s) =
        .ok (if strStarts (pyStrip s) "act_" then pyStrip s else "act_" ++ pyStrip s)) ∧
    (pyStrip s = s → strStarts s "act_" = true → normalize_act_id (.str s) = .ok s) ∧
    (∀ t, normalize_act_id (.str s) = .ok t → normalize_act_id (.str t) = .ok t) ∧
    (pyStrip s = "" →
      normalize_act_id (.str s) = .error (.valueError "Ad account ID cannot be empty.")) := by
  have hstr : pyStr (.str s) = s := rfl
  refine ⟨?_, ?_, ?_, ?_⟩
  · intro hne
    rw [normalize_act_id, hstr, if_neg hne, normalize_core]
  · intro hself hpre
    have hne : pyStrip s ≠ "" := by
      rw [hself]
      exact ne_empty_of_strStarts_act hpre
    rw [normalize_act_id, hstr, if_neg hne, normalize_core, hself, if_pos hpre]
  · intro t hok
    rw [normalize_act_id, hstr] at hok
    by_cases hne : pyStrip s = ""
    · rw [if_pos hne] at hok
      cases hok
    · rw [if_neg hne] at hok
      injection hok with ht
      subst ht
      rw [normalize_core]
      by_cases hpre : strStarts (pyStrip s) "act_" = true
      · rw [if_pos hpre]
        have hstrip : pyStrip (pyStrip s) = pyStrip s := pyStrip_idem s
        rw [normalize_act_id, show pyStr (.str (pyStrip s)) = pyStrip s from rfl,
          if_neg (by rw [hstrip]; exact hne), normalize_core, hstrip, if_pos hpre]
      · rw [if_neg hpre]
        have hstrip : pyStrip ("act_" ++ pyStrip s) = "act_" ++ pyStrip s :=
          pyStrip_act_append hne
        rw [normalize_act_id,
          show pyStr (.str ("act_" ++ pyStrip s)) = "act_" ++ pyStrip s from rfl,
          if_neg (by rw [hstrip]; exact act_append_ne_empty (pyStrip s)), normalize_core,
          hstrip, if_pos (strStarts_act_append (pyStrip s))]
  · intro hempty
    rw [normalize_act_id, hstr, if_pos hempty]

/-- Witness for C8 at the concrete inputs `" 123 "` (gets prefixed and
stripped), `"act_9"` (already normalized) and `"  "` (empty trim). -/
theorem claim_C8_witness :
    normalize_act_id (.str " 123 ") = .ok "act_123" ∧
    normalize_act_id (.str "act_9") = .ok "act_9" ∧
    normalize_act_id (.str "act_123") = .ok "act_123" ∧
    normalize_act_id (.str "  ") = .error (.valueError "Ad account ID cannot be empty.") := by
  refine ⟨?_, ?_, ?_, ?_⟩
  · have h := (claim_C8 " 123 ").1 (by decide)
    simpa using h
  · exact (claim_C8 "act_9").2.1 (by decide) (by decide)
  · exact (claim_C8 " 123 ").2.2.1 "act_123" (by
      have h := (claim_C8 " 123 ").1 (by decide)
      simpa using h)
  · exact (claim_C8 "  ").2.2.2 (by decide)

/-! ## Per-key transform case analysis -/

theorem transformParam_json {k : String} {v : JVal}
    (h : (jsonEncodedKeys.contains k && (v.isArr || v.isObj)) = true) :
    transformParam k v = .ok (.str (jdump v)) := by
  rw [transformParam, if_pos h]

theorem transformParam_csv {k : String} {v : JVal}
    (hk : k ∈ csvEncodedKeys) (ha : v.isArr = true) :
    transformParam k v = (pyJoinComma v.elems).map JVal.str := by
  simp only [csvEncodedKeys, List.mem_cons, List.not_mem_nil, or_false] at hk
  rcases hk with hk | hk | hk | hk <;> subst hk <;>
    rw [transformParam, if_neg (by simp [jsonEncodedKeys])] <;>
    simp [ha, Except.map] <;> cases pyJoinComma v.elems <;> rfl

theorem transformParam_other {k : String} {v : JVal}
    (hj : (jsonEncodedKeys.contains k && (v.isArr || v.isObj)) = false)
    (hc : k ∈ csvEncodedKeys → v.isArr = false) :
    transformParam k v = .ok v := by
  rw [transformParam, if_neg (by rw [hj]; simp)]
  by_cases ha : v.isArr = true
  · have hk : k ∉ csvEncodedKeys := fun hmem => by rw [hc hmem] at ha; cases ha
    simp only [csvEncodedKeys, List.mem_cons, List.not_mem_nil, or_false, not_or] at hk
    rw [if_neg (by simp [hk.1]), if_neg (by simp [hk.2.1]), if_neg (by simp [hk.2.2.1]),
      if_neg (by simp [hk.2.2.2])]
  · have ha₂ : v.isArr = false := by simpa using ha
    rw [if_neg (by simp [ha₂]), if_neg (by simp [ha₂]), if_neg (by simp [ha₂]),
      if_neg (by simp [ha₂])]

theorem prepare_params_lookup_of_null :
    ∀ (kw : List (String × JVal)) (base out : Params),
    prepare_params base kw = .ok out →
    ∀ k, (∀ v, (k, v) ∈ kw → v = JVal.null) → out.lookup k = base.lookup k := by
  intro kw
  induction kw with
  | nil =>
    intro base out hok k _
    simp only [prepare_params] at hok
    cases hok
    rfl
  | cons kv rest ih =>
    intro base out hok k hk
    obtain ⟨k₁, v₁⟩ := kv
    by_cases hnull : v₁ = JVal.null
    · rw [prepare_params, if_pos hnull] at hok
      exact ih base out hok k fun v hv => hk v (List.mem_cons_of_mem _ hv)
    · rw [prepare_params, if_neg hnull] at hok
      cases htr : transformParam k₁ v₁ with
      | error e => rw [htr] at hok; cases hok
      | ok w =>
        rw [htr] at hok
        have hne : k ≠ k₁ := by
          intro hkk
          subst hkk
          exact hnull (hk v₁ (List.mem_cons_self _ _))
        rw [ih (pset base k₁ w) out hok k fun v hv => hk v (List.mem_cons_of_mem _ hv)]
        exact lookup_pset_ne base k₁ k w hne

/-! ## Claim C6: `_prepare_params` output characterization -/

/-- Claim C6: the output of `_prepare_params` is the base mapping extended with
exactly the keyword arguments whose value is not `None` (an absent argument
yields no key at all); `fields`/`action_attribution_windows`/
`action_breakdowns`/`breakdowns` lists become comma-joined strings;
`filtering`/`time_range`/`time_ranges`/`effective_status`/
`special_ad_categories`/`objective`/`buyer_guarantee_agreement_status`
lists or mappings become JSON-serialized strings; every other value passes
through unchanged.  (Keyword keys are unique, as Python guarantees.) -/
theorem claim_C6 (base : Params) (kwargs : List (String × JVal)) (out : Params)
    (hok : prepare_params base kwargs = .ok out)
    (hnd : (kwargs.map Prod.fst).Nodup) :
    (∀ k v, (k, v) ∈ kwargs → v ≠ JVal.null →
      (((jsonEncodedKeys.contains k && (v.isArr || v.isObj)) = true →
         out.lookup k = some (.str (jdump v))) ∧
       ((jsonEncodedKeys.contains k && (v.isArr || v.isObj)) = false →
         k ∈ csvEncodedKeys → v.isArr = true →
         ∃ ss, allStrings v.elems = some ss ∧
           out.lookup k = some (.str (String.intercalate "," ss))) ∧
       ((jsonEncodedKeys.contains k && (v.isArr || v.isObj)) = false →
         (k ∈ csvEncodedKeys → v.isArr = false) →
         out.lookup k = some v))) ∧
    (∀ k, (∀ v, (k, v) ∈ kwargs → v = JVal.null) → out.lookup k = base.lookup k) ∧
    (∀ k, (out.lookup k).isSome ↔
      ((base.lookup k).isSome ∨ ∃ v, (k, v) ∈ kwargs ∧ v ≠ JVal.null)) := by
  refine ⟨?_, ?_, ?_⟩
  · intro k v hmem hv
    obtain ⟨w, htr, hlook⟩ := prepare_params_lookup_of_mem kwargs base out hok hnd k v hmem hv
    refine ⟨?_, ?_, ?_⟩
    · intro hjson
      rw [transformParam_json hjson] at htr
      injection htr with hw
      rw [← hw] at hlook
      exact hlook
    · intro hjson hcsv harr
      rw [transformParam_csv hcsv harr] at htr
      cases hall : allStrings v.elems with
      | none => rw [pyJoinComma, hall] at htr; cases htr
      | some ss =>
        refine ⟨ss, rfl, ?_⟩
        rw [pyJoinComma, hall] at htr
        injection htr with hw
        rw [← hw] at hlook
        exact hlook
    · intro hjson hother
      rw [transformParam_other hjson hother] at htr
      injection htr with hw
      rw [← hw] at hlook
      exact hlook
  · exact fun k => prepare_params_lookup_of_null kwargs base out hok k
  · exact prepare_params_isSome_iff kwargs base out hok

/-- Witness for C6: a concrete base and keyword set exercising the CSV join,
the JSON encoding, the pass-through and the `None`-omission branches. -/
theorem claim_C6_witness :
    List.lookup "fields"
      [("access_token", JVal.str "T"),
       ("fields", JVal.str "impressions,clicks"),
       ("filtering", JVal.str "[\x7b\"field\": \"spend\"\x7d]"),
       ("limit", JVal.num 25)] = some (JVal.str "impressions,clicks") ∧
    List.lookup "filtering"
      [("access_token", JVal.str "T"),
       ("fields", JVal.str "impressions,clicks"),
       ("filtering", JVal.str "[\x7b\"field\": \"spend\"\x7d]"),
       ("limit", JVal.num 25)] = some (JVal.str "[\x7b\"field\": \"spend\"\x7d]") ∧
    List.lookup "limit"
      [("access_token", JVal.str "T"),
       ("fields", JVal.str "impressions,clicks"),
       ("filtering", JVal.str "[\x7b\"field\": \"spend\"\x7d]"),
       ("limit", JVal.num 25)] = some (JVal.num 25) ∧
    List.lookup "sort"
      [("access_token", JVal.str "T"),
       ("fields", JVal.str "impressions,clicks"),
       ("filtering", JVal.str "[\x7b\"field\": \"spend\"\x7d]"),
       ("limit", JVal.num 25)] = none := by
  have hok : prepare_params [("access_token", JVal.str "T")]
      [("fields", JVal.arr [.str "impressions", .str "clicks"]),
       ("filtering", JVal.arr [.obj [("field", JVal.str "spend")]]),
       ("limit", JVal.num 25),
       ("sort", JVal.null)] = .ok
      [("access_token", JVal.str "T"),
       ("fields", JVal.str "impressions,clicks"),
       ("filtering", JVal.str "[\x7b\"field\": \"spend\"\x7d]"),
       ("limit", JVal.num 25)] := by rfl
  have h := claim_C6 _ _ _ hok (by decide)
  refine ⟨?_, ?_, ?_, ?_⟩
  · obtain ⟨ss, hss, hl⟩ :=
      ((h.1 "fields" (JVal.arr [.str "impressions", .str "clicks"]) (by decide)
        (by decide)).2.1 (by decide) (by decide) (by decide))
    have hssv : ss = ["impressions", "clicks"] := by
      have hcomp : allStrings (JVal.arr [.str "impressions", .str "clicks"]).elems =
          some ["impressions", "clicks"] := by rfl
      rw [hcomp] at hss
      injection hss with hss₂
      exact hss₂.symm
    rw [hssv] at hl
    simpa using hl
  · exact ((h.1 "filtering" (JVal.arr [.obj [("field", JVal.str "spend")]]) (by decide)
      (by decide)).1 (by decide))
  · exact ((h.1 "limit" (JVal.num 25) (by decide) (by decide)).2.2 (by decide)
      (by decide))
  · have hnullsort : ∀ v, ("sort", v) ∈
        [("fields", JVal.arr [.str "impressions", .str "clicks"]),
         ("filtering", JVal.arr [.obj [("field", JVal.str "spend")]]),
         ("limit", JVal.num 25),
         ("sort", JVal.null)] → v = JVal.null := by
      intro v hv
      simp at hv
      exact hv
    have hlk := h.2.1 "sort" hnullsort
    simpa using hlk

theorem lookup_ite_pset_ne {c : Prop} [Decidable c] (p : Params) (k k₂ : String)
    (v : JVal) (h : k₂ ≠ k) :
    ((if c then pset p k v else p).lookup k₂) = p.lookup k₂ := by
  split
  · exact lookup_pset_ne p k k₂ v h
  · rfl

theorem lookup_ite_pset_self {c : Prop} [Decidable c] (p : Params) (k : String) (v : JVal) :
    ((if c then pset p k v else p).lookup k) = if c then some v else p.lookup k := by
  split
  · exact lookup_pset_self p k v
  · rfl

/-! ## Stage lemmas for `_build_insights_params` -/

theorem lookup_applyBooleanFlags_ne (p : Params) (a : InsightsArgs) (k : String)
    (h₁ : k ≠ "default_summary") (h₂ : k ≠ "use_account_attribution_setting")
    (h₃ : k ≠ "use_unified_attribution_setting") :
    (applyBooleanFlags p a).lookup k = p.lookup k := by
  simp only [applyBooleanFlags]
  rw [lookup_ite_pset_ne _ _ _ _ h₃, lookup_ite_pset_ne _ _ _ _ h₂,
    lookup_ite_pset_ne _ _ _ _ h₁]

theorem lookup_tw_date_preset (p : Params) (a : InsightsArgs) :
    (applyTimeWindowParams p a).lookup "date_preset" =
      if (!(a.time_range.truthy || a.time_ranges.truthy || a.since.truthy ||
            a.«until».truthy) && a.date_preset.truthy) = true
      then some a.date_preset else p.lookup "date_preset" := by
  simp only [applyTimeWindowParams]
  split
  · rw [lookup_ite_pset_ne _ _ _ _ (show ("date_preset" : String) ≠ "until" by decide),
      lookup_ite_pset_ne _ _ _ _ (show ("date_preset" : String) ≠ "since" by decide),
      lookup_ite_pset_ne _ _ _ _ (show ("date_preset" : String) ≠ "time_increment" by decide),
      lookup_ite_pset_ne _ _ _ _ (show ("date_preset" : String) ≠ "time_ranges" by decide),
      lookup_ite_pset_ne _ _ _ _ (show ("date_preset" : String) ≠ "time_range" by decide),
      lookup_ite_pset_self]
  · rw [lookup_ite_pset_ne _ _ _ _ (show ("date_preset" : String) ≠ "time_increment" by decide),
      lookup_ite_pset_ne _ _ _ _ (show ("date_preset" : String) ≠ "time_ranges" by decide),
      lookup_ite_pset_ne _ _ _ _ (show ("date_preset" : String) ≠ "time_range" by decide),
      lookup_ite_pset_self]

theorem lookup_tw_time_range (p : Params) (a : InsightsArgs) :
    (applyTimeWindowParams p a).lookup "time_range" =
      if a.time_range.truthy = true then some (.str (jdump a.time_range))
      else p.lookup "time_range" := by
  simp only [applyTimeWindowParams]
  split
  · rw [lookup_ite_pset_ne _ _ _ _ (show ("time_range" : String) ≠ "until" by decide),
      lookup_ite_pset_ne _ _ _ _ (show ("time_range" : String) ≠ "since" by decide),
      lookup_ite_pset_ne _ _ _ _ (show ("time_range" : String) ≠ "time_increment" by decide),
      lookup_ite_pset_ne _ _ _ _ (show ("time_range" : String) ≠ "time_ranges" by decide),
      lookup_ite_pset_self,
      lookup_ite_pset_ne _ _ _ _ (show ("time_range" : String) ≠ "date_preset" by decide)]
  · rw [lookup_ite_pset_ne _ _ _ _ (show ("time_range" : String) ≠ "time_increment" by decide),
      lookup_ite_pset_ne _ _ _ _ (show ("time_range" : String) ≠ "time_ranges" by decide),
      lookup_ite_pset_self,
      lookup_ite_pset_ne _ _ _ _ (show ("time_range" : String) ≠ "date_preset" by decide)]

theorem lookup_tw_time_ranges (p : Params) (a : InsightsArgs) :
    (applyTimeWindowParams p a).lookup "time_ranges" =
      if a.time_ranges.truthy = true then some (.str (jdump a.time_ranges))
      else p.lookup "time_ranges" := by
  simp only [applyTimeWindowParams]
  split
  · rw [lookup_ite_pset_ne _ _ _ _ (show ("time_ranges" : String) ≠ "until" by decide),
      lookup_ite_pset_ne _ _ _ _ (show ("time_ranges" : String) ≠ "since" by decide),
      lookup_ite_pset_ne _ _ _ _ (show ("time_ranges" : String) ≠ "time_increment" by decide),
      lookup_ite_pset_self,
      lookup_ite_pset_ne _ _ _ _ (show ("time_ranges" : String) ≠ "time_range" by decide),
      lookup_ite_pset_ne _ _ _ _ (show ("time_ranges" : String) ≠ "date_preset" by decide)]
  · rw [lookup_ite_pset_ne _ _ _ _ (show ("time_ranges" : String) ≠ "time_increment" by decide),
      lookup_ite_pset_self,
      lookup_ite_pset_ne _ _ _ _ (show ("time_ranges" : String) ≠ "time_range" by decide),
      lookup_ite_pset_ne _ _ _ _ (show ("time_ranges" : String) ≠ "date_preset" by decide)]

theorem lookup_tw_time_increment (p : Params) (a : InsightsArgs) :
    (applyTimeWindowParams p a).lookup "time_increment" =
      if (a.time_increment.truthy && a.time_increment ≠ .str "all_days")
      then some a.time_increment else p.lookup "time_increment" := by
  simp only [applyTimeWindowParams]
  split
  · rw [lookup_ite_pset_ne _ _ _ _ (show ("time_increment" : String) ≠ "until" by decide),
      lookup_ite_pset_ne _ _ _ _ (show ("time_increment" : String) ≠ "since" by decide),
      lookup_ite_pset_self,
      lookup_ite_pset_ne _ _ _ _ (show ("time_increment" : String) ≠ "time_ranges" by decide),
      lookup_ite_pset_ne _ _ _ _ (show ("time_increment" : String) ≠ "time_range" by decide),
      lookup_ite_pset_ne _ _ _ _ (show ("time_increment" : String) ≠ "date_preset" by decide)]
  · rw [lookup_ite_pset_self,
      lookup_ite_pset_ne _ _ _ _ (show ("time_increment" : String) ≠ "time_ranges" by decide),
      lookup_ite_pset_ne _ _ _ _ (show ("time_increment" : String) ≠ "time_range" by decide),
      lookup_ite_pset_ne _ _ _ _ (show ("time_increment" : String) ≠ "date_preset" by decide)]

theorem lookup_tw_since (p : Params) (a : InsightsArgs) :
    (applyTimeWindowParams p a).lookup "since" =
      if ((!a.time_range.truthy && !a.time_ranges.truthy) && a.since.truthy) = true
      then some a.since else p.lookup "since" := by
  simp only [applyTimeWindowParams]
  split
  case isTrue h =>
    rw [lookup_ite_pset_ne _ _ _ _ (show ("since" : String) ≠ "until" by decide),
      lookup_ite_pset_self,
      lookup_ite_pset_ne _ _ _ _ (show ("since" : String) ≠ "time_increment" by decide),
      lookup_ite_pset_ne _ _ _ _ (show ("since" : String) ≠ "time_ranges" by decide),
      lookup_ite_pset_ne _ _ _ _ (show ("since" : String) ≠ "time_range" by decide),
      lookup_ite_pset_ne _ _ _ _ (show ("since" : String) ≠ "date_preset" by decide)]
    rw [show ((!a.time_range.truthy && !a.time_ranges.truthy) && a.since.truthy) =
      a.since.truthy by rw [h]; simp]
  case isFalse h =>
    rw [lookup_ite_pset_ne _ _ _ _ (show ("since" : String) ≠ "time_increment" by decide),
      lookup_ite_pset_ne _ _ _ _ (show ("since" : String) ≠ "time_ranges" by decide),
      lookup_ite_pset_ne _ _ _ _ (show ("since" : String) ≠ "time_range" by decide),
      lookup_ite_pset_ne _ _ _ _ (show ("since" : String) ≠ "date_preset" by decide)]
    rw [show (!a.time_range.truthy && !a.time_ranges.truthy) = false from by
      cases hb : (!a.time_range.truthy && !a.time_ranges.truthy) with
      | false => rfl
      | true => exact absurd hb h]
    simp

theorem lookup_tw_until (p : Params) (a : InsightsArgs) :
    (applyTimeWindowParams p a).lookup "until" =
      if ((!a.time_range.truthy && !a.time_ranges.truthy) && a.«until».truthy) = true
      then some a.«until» else p.lookup "until" := by
  simp only [applyTimeWindowParams]
  split
  case isTrue h =>
    rw [lookup_ite_pset_self,
      lookup_ite_pset_ne _ _ _ _ (show ("until" : String) ≠ "since" by decide),
      lookup_ite_pset_ne _ _ _ _ (show ("until" : String) ≠ "time_increment" by decide),
      lookup_ite_pset_ne _ _ _ _ (show ("until" : String) ≠ "time_ranges" by decide),
      lookup_ite_pset_ne _ _ _ _ (show ("until" : String) ≠ "time_range" by decide),
      lookup_ite_pset_ne _ _ _ _ (show ("until" : String) ≠ "date_preset" by decide)]
    rw [show ((!a.time_range.truthy && !a.time_ranges.truthy) && a.«until».truthy) =
      a.«until».truthy by rw [h]; simp]
  case isFalse h =>
    rw [lookup_ite_pset_ne _ _ _ _ (show ("until" : String) ≠ "time_increment" by decide),
      lookup_ite_pset_ne _ _ _ _ (show ("until" : String) ≠ "time_ranges" by decide),
      lookup_ite_pset_ne _ _ _ _ (show ("until" : String) ≠ "time_range" by decide),
      lookup_ite_pset_ne _ _ _ _ (show ("until" : String) ≠ "date_preset" by decide)]
    rw [show (!a.time_range.truthy && !a.time_ranges.truthy) = false from by
      cases hb : (!a.time_range.truthy && !a.time_ranges.truthy) with
      | false => rfl
      | true => exact absurd hb h]
    simp

/-! ## Claim C5: insights time-window precedence -/

/-- Claim C5: in the mapping built by `_build_insights_params` (over a base
that carries none of the time keys, as at every call site):
`date_preset` is present iff it is truthy and none of `time_range`,
`time_ranges`, `since`, `until` is; a supplied `time_ranges` is emitted
(JSON-encoded) and suppresses `date_preset`, as does a supplied
`time_range`; `since`/`until` pass through untouched exactly when neither
`time_range` nor `time_ranges` is supplied; `time_increment` is present iff
truthy and different from the `'all_days'` wire default. -/
theorem claim_C5 (base : Params) (a : InsightsArgs) (out : Params)
    (hok : build_insights_params base a = .ok out)
    (hbase : ∀ k, k ∈ ["date_preset", "time_range", "time_ranges",
      "time_increment", "since", "until"] → base.lookup k = none) :
    ((out.lookup "date_preset").isSome =
      (!(a.time_range.truthy || a.time_ranges.truthy || a.since.truthy ||
         a.«until».truthy) && a.date_preset.truthy)) ∧
    (out.lookup "time_range" =
      if a.time_range.truthy then some (.str (jdump a.time_range)) else none) ∧
    (out.lookup "time_ranges" =
      if a.time_ranges.truthy then some (.str (jdump a.time_ranges)) else none) ∧
    (a.time_ranges.truthy = true → out.lookup "date_preset" = none) ∧
    (a.time_range.truthy = true → out.lookup "date_preset" = none) ∧
    (out.lookup "since" =
      if (!a.time_range.truthy && !a.time_ranges.truthy) && a.since.truthy
      then some a.since else none) ∧
    (out.lookup "until" =
      if (!a.time_range.truthy && !a.time_ranges.truthy) && a.«until».truthy
      then some a.«until» else none) ∧
    (out.lookup "time_increment" =
      if a.time_increment.truthy && a.time_increment ≠ .str "all_days"
      then some a.time_increment else none) := by
  rw [build_insights_params] at hok
  cases hpp : prepare_params base
      [("fields", a.fields), ("level", a.level),
       ("action_attribution_windows", a.action_attribution_windows),
       ("action_breakdowns", a.action_breakdowns),
       ("action_report_time", a.action_report_time),
       ("breakdowns", a.breakdowns), ("filtering", a.filtering),
       ("sort", a.sort), ("limit", a.limit), ("after", a.after),
       ("before", a.before), ("offset", a.offset), ("locale", a.locale)] with
  | error e =>
    rw [hpp] at hok
    cases hok
  | ok p₀ =>
    rw [hpp] at hok
    simp only [bind, Except.bind, Except.ok.injEq] at hok
    have hp₀ : ∀ k, k ∈ ["date_preset", "time_range", "time_ranges",
        "time_increment", "since", "until"] → p₀.lookup k = none := by
      intro k hk
      rw [prepare_params_lookup_of_not_mem _ base p₀ hpp k (by
        fin_cases hk <;> simp)]
      exact hbase k hk
    subst hok
    have h₁ := hp₀ "date_preset" (by simp)
    have h₂ := hp₀ "time_range" (by simp)
    have h₃ := hp₀ "time_ranges" (by simp)
    have h₄ := hp₀ "time_increment" (by simp)
    have h₅ := hp₀ "since" (by simp)
    have h₆ := hp₀ "until" (by simp)
    have hflags : ∀ k, k ∈ (["date_preset", "time_range", "time_ranges",
        "time_increment", "since", "until"] : List String) →
        (applyBooleanFlags (applyTimeWindowParams p₀ a) a).lookup k =
        (applyTimeWindowParams p₀ a).lookup k := by
      intro k hk
      fin_cases hk <;>
        exact lookup_applyBooleanFlags_ne _ _ _ (by decide) (by decide) (by decide)
    refine ⟨?_, ?_, ?_, ?_, ?_, ?_, ?_, ?_⟩
    · rw [hflags "date_preset" (by simp), lookup_tw_date_preset, h₁]
      cases hcond : (!(a.time_range.truthy || a.time_ranges.truthy || a.since.truthy ||
          a.«until».truthy) && a.date_preset.truthy) <;> simp [hcond]
    · rw [hflags "time_range" (by simp), lookup_tw_time_range, h₂]
    · rw [hflags "time_ranges" (by simp), lookup_tw_time_ranges, h₃]
    · intro htrs
      rw [hflags "date_preset" (by simp), lookup_tw_date_preset, h₁]
      simp [htrs]
    · intro htr
      rw [hflags "date_preset" (by simp), lookup_tw_date_preset, h₁]
      simp [htr]
    · rw [hflags "since" (by simp), lookup_tw_since, h₅]
    · rw [hflags "until" (by simp), lookup_tw_until, h₆]
    · rw [hflags "time_increment" (by simp), lookup_tw_time_increment, h₄]

/-- Witness for C5: with both `time_ranges` and `date_preset` supplied the
built parameters carry `time_ranges` and omit `date_preset`; with only
`since`/`until` supplied both pass through and `time_increment='all_days'`
is omitted. -/
theorem claim_C5_witness :
    List.lookup "time_ranges"
      [("access_token", JVal.str "T"),
       ("time_ranges", JVal.str "[\x7b\"since\": \"2023-01-01\", \"until\": \"2023-01-31\"\x7d]"),
       ("use_unified_attribution_setting", JVal.str "true")] =
      some (JVal.str "[\x7b\"since\": \"2023-01-01\", \"until\": \"2023-01-31\"\x7d]") ∧
    List.lookup "date_preset"
      [("access_token", JVal.str "T"),
       ("time_ranges", JVal.str "[\x7b\"since\": \"2023-01-01\", \"until\": \"2023-01-31\"\x7d]"),
       ("use_unified_attribution_setting", JVal.str "true")] = none ∧
    List.lookup "since"
      [("access_token", JVal.str "T"),
       ("since", JVal.str "1696118400"), ("until", JVal.str "1698796800"),
       ("use_unified_attribution_setting", JVal.str "true")] =
      some (JVal.str "1696118400") ∧
    List.lookup "until"
      [("access_token", JVal.str "T"),
       ("since", JVal.str "1696118400"), ("until", JVal.str "1698796800"),
       ("use_unified_attribution_setting", JVal.str "true")] =
      some (JVal.str "1698796800") ∧
    List.lookup "time_increment"
      [("access_token", JVal.str "T"),
       ("since", JVal.str "1696118400"), ("until", JVal.str "1698796800"),
       ("use_unified_attribution_setting", JVal.str "true")] = none := by
  have hbase : ∀ k, k ∈ (["date_preset", "time_range", "time_ranges",
      "time_increment", "since", "until"] : List String) →
      List.lookup k [("access_token", JVal.str "T")] = none := by
    intro k hk
    fin_cases hk <;> rfl
  have hok₁ : build_insights_params [("access_token", JVal.str "T")]
      { defaultInsightsToolArgs with
        time_ranges := JVal.arr [.obj [("since", JVal.str "2023-01-01"),
          ("until", JVal.str "2023-01-31")]] } = .ok
      [("access_token", JVal.str "T"),
       ("time_ranges", JVal.str "[\x7b\"since\": \"2023-01-01\", \"until\": \"2023-01-31\"\x7d]"),
       ("use_unified_attribution_setting", JVal.str "true")] := by rfl
  have hok₂ : build_insights_params [("access_token", JVal.str "T")]
      { defaultInsightsToolArgs with
        date_preset := JVal.null,
        since := JVal.str "1696118400",
        «until» := JVal.str "1698796800" } = .ok
      [("access_token", JVal.str "T"),
       ("since", JVal.str "1696118400"), ("until", JVal.str "1698796800"),
       ("use_unified_attribution_setting", JVal.str "true")] := by rfl
  have h₁ := claim_C5 _ _ _ hok₁ hbase
  have h₂ := claim_C5 _ _ _ hok₂ hbase
  refine ⟨?_, h₁.2.2.2.1 rfl, ?_, ?_, ?_⟩
  · rw [h₁.2.2.1]
    rfl
  · rw [h₂.2.2.2.2.2.1]
    rfl
  · rw [h₂.2.2.2.2.2.2.1]
    rfl
  · rw [h₂.2.2.2.2.2.2.2]
    rfl

/-! ## Claim C7: end-to-end campaign-insights request -/

/-- Claim C7: invoking the campaign-insights tool with `campaign_id="123"` and
no other arguments builds a request to `.../123/insights` whose parameters
carry `level=campaign`, `date_preset=last_30d` and
`use_unified_attribution_setting='true'`, leave `action_breakdowns` to its
documented API-side default (no explicit key is sent), and contain no
`time_range`, `time_increment` or `breakdowns` keys. -/
theorem claim_C7 (env : EnvCtx) (st : ServerState) (tok : JVal)
    (htok : st.fb_access_token = some tok) :
    campaign_insights_request env st (.str "123") defaultInsightsToolArgs =
      .ok ("https://graph.facebook.com/v22.0/123/insights",
        [("access_token", tok), ("level", JVal.str "campaign"),
         ("date_preset", JVal.str "last_30d"),
         ("use_unified_attribution_setting", JVal.str "true")], st) ∧
    List.lookup "level"
      [("access_token", tok), ("level", JVal.str "campaign"),
       ("date_preset", JVal.str "last_30d"),
       ("use_unified_attribution_setting", JVal.str "true")] =
      some (JVal.str "campaign") ∧
    List.lookup "date_preset"
      [("access_token", tok), ("level", JVal.str "campaign"),
       ("date_preset", JVal.str "last_30d"),
       ("use_unified_attribution_setting", JVal.str "true")] =
      some (JVal.str "last_30d") ∧
    List.lookup "use_unified_attribution_setting"
      [("access_token", tok), ("level", JVal.str "campaign"),
       ("date_preset", JVal.str "last_30d"),
       ("use_unified_attribution_setting", JVal.str "true")] =
      some (JVal.str "true") ∧
    List.lookup "action_breakdowns"
      [("access_token", tok), ("level", JVal.str "campaign"),
       ("date_preset", JVal.str "last_30d"),
       ("use_unified_attribution_setting", JVal.str "true")] = none ∧
    List.lookup "time_range"
      [("access_token", tok), ("level", JVal.str "campaign"),
       ("date_preset", JVal.str "last_30d"),
       ("use_unified_attribution_setting", JVal.str "true")] = none ∧
    List.lookup "time_increment"
      [("access_token", tok), ("level", JVal.str "campaign"),
       ("date_preset", JVal.str "last_30d"),
       ("use_unified_attribution_setting", JVal.str "true")] = none ∧
    List.lookup "breakdowns"
      [("access_token", tok), ("level", JVal.str "campaign"),
       ("date_preset", JVal.str "last_30d"),
       ("use_unified_attribution_setting", JVal.str "true")] = none := by
  obtain ⟨ft, cc, da⟩ := st
  simp only at htok
  subst htok
  exact ⟨rfl, rfl, rfl, rfl, rfl, rfl, rfl, rfl⟩

/-- Witness for C7 at a concrete session state. -/
theorem claim_C7_witness :
    campaign_insights_request
      ⟨[], fun _ => none, fun _ => none⟩
      ⟨some (.str "TOKEN"), none, none⟩ (.str "123") defaultInsightsToolArgs =
      .ok ("https://graph.facebook.com/v22.0/123/insights",
        [("access_token", JVal.str "TOKEN"), ("level", JVal.str "campaign"),
         ("date_preset", JVal.str "last_30d"),
         ("use_unified_attribution_setting", JVal.str "true")],
        ⟨some (.str "TOKEN"), none, none⟩) :=
  (claim_C7 ⟨[], fun _ => none, fun _ => none⟩
    ⟨some (.str "TOKEN"), none, none⟩ (.str "TOKEN") rfl).1

/-! ## Claim C4: token replacement invalidation -/

/-- Claim C4: `set_access_token` with a non-empty token always clears the
previously cached default ad account (whatever it was); when a non-blank
`act_id` is also supplied, the cache is seeded directly with its normalized
`act_`-prefixed form and the optional stripped name.  The embedding of
`set_access_token` takes no HTTP oracle: the source makes no remote call. -/
theorem claim_C4 (st : ServerState) (tok : String) (htok : pyStrip tok ≠ "") :
    (∀ resp st₂, set_access_token st (.str tok) .null .null = .ok (resp, st₂) →
      st₂.default_ad_account = none ∧
      st₂.fb_access_token = some (.str (pyStrip tok))) ∧
    (∀ aid aname : String, pyStrip aid ≠ "" →
      ∀ resp st₂,
        set_access_token st (.str tok) (.str aid) (.str aname) = .ok (resp, st₂) →
        st₂.default_ad_account = some (.obj
          ([("id", .str (normalize_core aid))] ++
           (if pyStrip aname = "" then [] else [("name", .str (pyStrip aname))])))) ∧
    (∀ aid : String, pyStrip aid ≠ "" →
      ∀ resp st₂, set_access_token st (.str tok) (.str aid) .null = .ok (resp, st₂) →
        st₂.default_ad_account = some (.obj [("id", .str (normalize_core aid))])) := by
  refine ⟨?_, ?_, ?_⟩
  · intro resp st₂ hok
    simp only [set_access_token, if_neg htok, JVal.truthy] at hok
    injection hok with h₁
    injection h₁ with hresp hst
    subst hst
    exact ⟨rfl, rfl⟩
  · intro aid aname haid resp st₂ hok
    have haid₂ : aid ≠ "" := fun h => haid (by rw [h]; rfl)
    simp only [set_access_token, if_neg htok, JVal.truthy, set_default_ad_account,
      if_neg haid, bne_iff_ne, ne_eq, haid₂, not_false_eq_true, if_true] at hok
    injection hok with h₁
    injection h₁ with hresp hst
    subst hst
    by_cases hname : pyStrip aname = ""
    · simp [hname]
    · simp [hname]
  · intro aid haid resp st₂ hok
    have haid₂ : aid ≠ "" := fun h => haid (by rw [h]; rfl)
    simp only [set_access_token, if_neg htok, JVal.truthy, set_default_ad_account,
      if_neg haid, bne_iff_ne, ne_eq, haid₂, not_false_eq_true, if_true] at hok
    injection hok with h₁
    injection h₁ with hresp hst
    subst hst
    rfl

/-- Witness for C4: a session with a stale cached default account; setting a
new token clears it, and seeding with an explicit pair fills it directly. -/
theorem claim_C4_witness :
    ((⟨some (.str "NEW"), none, none⟩ : ServerState).default_ad_account = none ∧
     (⟨some (.str "NEW"), none, none⟩ : ServerState).fb_access_token =
       some (.str "NEW")) ∧
    (⟨some (.str "NEW"), none,
        some (.obj [("id", .str "act_42"), ("name", .str "Main")])⟩ :
      ServerState).default_ad_account =
      some (.obj [("id", .str "act_42"), ("name", .str "Main")]) := by
  constructor
  · exact (claim_C4 ⟨some (.str "OLD"), none, some (.obj [("id", .str "act_1")])⟩
      "NEW" (by decide)).1
      (.obj [("status", .str "success"), ("access_token_configured", .bool true)])
      ⟨some (.str "NEW"), none, none⟩ rfl
  · exact (claim_C4 ⟨some (.str "OLD"), none, some (.obj [("id", .str "act_1")])⟩
      "NEW" (by decide)).2.1 "42" " Main " (by decide)
      (.obj [("status", .str "success"), ("access_token_configured", .bool true),
        ("default_ad_account", .obj [("id", .str "act_42"), ("name", .str "Main")])])
      ⟨some (.str "NEW"), none,
        some (.obj [("id", .str "act_42"), ("name", .str "Main")])⟩ rfl

/-! ## Claim C2: which tools drain pagination -/

/-- Claim C2 (amended): `get_campaign_insights`, `get_adset_insights` and
`get_ad_insights` perform exactly one API call and return its response
unchanged — no pagination loop runs, even when the response carries a
`paging.next` cursor.  (Only `get_adaccount_insights` and
`list_ad_accounts` drain pagination; see C1.) -/
theorem claim_C2 (env : EnvCtx) (api : String → Params → Except Err JVal)
    (st : ServerState) (idv : JVal) (a : InsightsArgs)
    (url : String) (params : Params) (st₂ : ServerState) (page : JVal) :
    (campaign_insights_request env st idv a = .ok (url, params, st₂) →
      api url params = .ok page →
      get_campaign_insights env api st idv a = .ok (page, st₂, [Call.api url params])) ∧
    (adset_insights_request env st idv a = .ok (url, params, st₂) →
      api url params = .ok page →
      get_adset_insights env api st idv a = .ok (page, st₂, [Call.api url params])) ∧
    (ad_insights_request env st idv a = .ok (url, params, st₂) →
      api url params = .ok page →
      get_ad_insights env api st idv a = .ok (page, st₂, [Call.api url params])) := by
  refine ⟨?_, ?_, ?_⟩ <;> intro hreq hapi
  · simp only [get_campaign_insights, hreq, bind, Except.bind, hapi]
  · simp only [get_adset_insights, hreq, bind, Except.bind, hapi]
  · simp only [get_ad_insights, hreq, bind, Except.bind, hapi]

/-- Counterexample for C2 as frozen: with a first page that carries a
`paging.next` cursor and one row, `get_campaign_insights` returns that page
as-is — the cursor survives and the data is not the two-page aggregate. -/
theorem claim_C2_counterexample :
    get_campaign_insights ⟨[], fun _ => none, fun _ => none⟩
      (fun _ _ => .ok (.obj [("data", .arr [.str "row1"]),
        ("paging", .obj [("next", .str "u2")])]))
      ⟨some (.str "T"), none, none⟩ (.str "123") defaultInsightsToolArgs =
      .ok (.obj [("data", .arr [.str "row1"]),
            ("paging", .obj [("next", .str "u2")])],
           ⟨some (.str "T"), none, none⟩,
           [Call.api "https://graph.facebook.com/v22.0/123/insights"
             [("access_token", JVal.str "T"), ("level", JVal.str "campaign"),
              ("date_preset", JVal.str "last_30d"),
              ("use_unified_attribution_setting", JVal.str "true")]]) ∧
    objGet? (.obj [("data", .arr [.str "row1"]),
      ("paging", .obj [("next", .str "u2")])]) "paging" =
      some (.obj [("next", .str "u2")]) ∧
    pageData (.obj [("data", .arr [.str "row1"]),
      ("paging", .obj [("next", .str "u2")])]) ≠
      [JVal.str "row1", JVal.str "row2"] := by
  refine ⟨rfl, rfl, ?_⟩
  intro h
  have := congrArg List.length h
  simp [pageData] at this

/-- Witness for C2 at a concrete session: the adset tool also passes its
single-page response through unchanged. -/
theorem claim_C2_witness :
    get_adset_insights ⟨[], fun _ => none, fun _ => none⟩
      (fun _ _ => .ok (.obj [("data", .arr [.str "r"])]))
      ⟨some (.str "T"), none, none⟩ (.str "777") defaultInsightsToolArgs =
      .ok (.obj [("data", .arr [.str "r"])],
           ⟨some (.str "T"), none, none⟩,
           [Call.api "https://graph.facebook.com/v22.0/777/insights"
             [("access_token", JVal.str "T"), ("level", JVal.str "adset"),
              ("date_preset", JVal.str "last_30d"),
              ("use_unified_attribution_setting", JVal.str "true")]]) :=
  (claim_C2 ⟨[], fun _ => none, fun _ => none⟩
    (fun _ _ => .ok (.obj [("data", .arr [.str "r"])]))
    ⟨some (.str "T"), none, none⟩ (.str "777") defaultInsightsToolArgs
    "https://graph.facebook.com/v22.0/777/insights"
    [("access_token", JVal.str "T"), ("level", JVal.str "adset"),
     ("date_preset", JVal.str "last_30d"),
     ("use_unified_attribution_setting", JVal.str "true")]
    ⟨some (.str "T"), none, none⟩ (.obj [("data", .arr [.str "r"])])).2.1 rfl rfl

/-! ## Run characterizations of the draining tools -/

/-- Symbolic run of `list_ad_accounts` over a finite page chain: the result
is the first response with the `adaccounts` envelope's `data` replaced by
the de-duplicated concatenation of all pages' rows and its stale cursors
removed; the rest of the response is untouched. -/
theorem list_ad_accounts_run (env : EnvCtx) (api : String → Params → Except Err JVal)
    (pagFetch : JVal → Except Err JVal) (fuel : Nat)
    (tok : JVal) (cc da : Option JVal) (result : JVal) (skvs : Params)
    (first : List JVal) (nxt₀ : JVal) (pages : List JVal)
    (hapi : api (FB_GRAPH_URL ++ "/me")
      [("access_token", tok), ("fields", .str "adaccounts\x7bname\x7d")] = .ok result)
    (hsec : objGet? result "adaccounts" = some (.obj skvs))
    (hdata : skvs.lookup "data" = some (.arr first))
    (hnxt : pageNext (.obj skvs) = .ok nxt₀)
    (hchain : PageChain pagFetch nxt₀ pages)
    (hfuel : pages.length ≤ fuel) :
    list_ad_accounts env api pagFetch fuel ⟨some tok, cc, da⟩ = .ok
      (objSet result "adaccounts"
        (stripNextPrev (objSet (.obj skvs) "data"
          (.arr (dedupAccounts []
            (first ++ (pages.map pageData).flatten))))),
       ⟨some tok, cc, da⟩) := by
  have hres : ∃ rkvs, result = .obj rkvs := by
    cases result <;> simp [objGet?] at hsec <;> exact ⟨_, rfl⟩
  obtain ⟨rkvs, hrk⟩ := hres
  subst hrk
  rw [list_ad_accounts]
  simp only [get_fb_access_token, bind, Except.bind]
  rw [hapi]
  simp only [hsec, Option.getD_some]
  rw [show pyList (((skvs.lookup "data").getD (.arr []))) = .ok first from by
    rw [hdata]; rfl]
  simp only [bind, Except.bind]
  rw [hnxt]
  simp only [bind, Except.bind]
  rw [drainLoop_eq_of_chain pagFetch hchain first fuel hfuel]

/-- Symbolic run of `get_adaccount_insights` over a finite page chain: the
result is the first-page envelope with `data` replaced by the plain
concatenation of all pages' rows (no de-duplication) and its stale cursors
removed. -/
theorem get_adaccount_insights_run (env : EnvCtx)
    (api : String → Params → Except Err JVal)
    (pagFetch : JVal → Except Err JVal) (fuel : Nat)
    (tok : JVal) (cc da : Option JVal) (aid : String) (a : InsightsArgs)
    (prms : Params) (initial : JVal) (ikvs : Params) (nxt₀ : JVal) (pages : List JVal)
    (haid : pyStrip aid ≠ "")
    (hbuild : build_insights_params [("access_token", tok)] a = .ok prms)
    (hapi : api (FB_GRAPH_URL ++ "/" ++ normalize_core aid ++ "/insights") prms =
      .ok initial)
    (hikvs : initial = .obj ikvs)
    (hnxt : pageNext initial = .ok nxt₀)
    (hchain : PageChain pagFetch nxt₀ pages)
    (hfuel : pages.length ≤ fuel) :
    get_adaccount_insights env api pagFetch fuel ⟨some tok, cc, da⟩ (.str aid) a =
      .ok (stripNextPrev (objSet initial "data"
        (.arr (pageData initial ++ (pages.map pageData).flatten))),
       ⟨some tok, cc, da⟩) := by
  have haid₂ : aid ≠ "" := fun h => haid (by rw [h]; rfl)
  rw [get_adaccount_insights]
  simp only [get_fb_access_token, bind, Except.bind]
  have hnorm : normalize_act_id (.str aid) = .ok (normalize_core aid) := by
    rw [normalize_act_id, if_neg (by exact haid)]
    rfl
  rw [show resolve_act_id env api ⟨some tok, cc, da⟩ (.str aid) =
      .ok (.str (normalize_core aid), ⟨some tok, cc, da⟩, []) from by
    rw [resolve_act_id, if_pos (by simp [JVal.truthy, haid₂]), hnorm]
    rfl]
  simp only [bind, Except.bind]
  rw [hbuild]
  simp only [bind, Except.bind]
  rw [show (FB_GRAPH_URL ++ "/" ++ pyStr (.str (normalize_core aid)) ++ "/insights") =
    (FB_GRAPH_URL ++ "/" ++ normalize_core aid ++ "/insights") from rfl]
  rw [hapi]
  subst hikvs
  simp only []
  rw [hnxt]
  simp only [bind, Except.bind]
  rw [drainLoop_eq_of_chain pagFetch hchain (pageData (.obj ikvs)) fuel hfuel]

/-! ## De-duplication lemmas -/

theorem dedupAccounts_sublist : ∀ (seen l : List JVal),
    List.Sublist (dedupAccounts seen l) l := by
  intro seen l
  induction l generalizing seen with
  | nil => simp [dedupAccounts]
  | cons a rest ih =>
    rw [dedupAccounts]
    split
    · exact (ih seen).trans (List.sublist_cons_self a rest)
    · split
      · exact List.Sublist.cons₂ a (ih _)
      · exact List.Sublist.cons₂ a (ih seen)

theorem dedupAccounts_filter_falsy : ∀ (seen l : List JVal),
    (dedupAccounts seen l).filter (fun r => !(accountId r).truthy) =
    l.filter (fun r => !(accountId r).truthy) := by
  intro seen l
  induction l generalizing seen with
  | nil => simp [dedupAccounts]
  | cons a rest ih =>
    rw [dedupAccounts]
    split
    case isTrue h =>
      have ht : (accountId a).truthy = true := (Bool.and_eq_true .. |>.mp h).1
      rw [List.filter_cons_of_neg (by simp [ht])]
      exact ih seen
    case isFalse h =>
      split
      case isTrue h₂ =>
        rw [List.filter_cons_of_neg (by simp [h₂]), List.filter_cons_of_neg (by simp [h₂])]
        exact ih _
      case isFalse h₂ =>
        have hf : (accountId a).truthy = false := by simpa using h₂
        rw [List.filter_cons_of_pos (by simp [hf]), List.filter_cons_of_pos (by simp [hf])]
        rw [ih seen]

theorem dedupAccounts_filter_seen : ∀ (seen l : List JVal) (v : JVal),
    v.truthy = true → seen.contains v = true →
    (dedupAccounts seen l).filter (fun r => accountId r == v) = [] := by
  intro seen l
  induction l generalizing seen with
  | nil => simp [dedupAccounts]
  | cons a rest ih =>
    intro v hv hseen
    rw [dedupAccounts]
    by_cases heq : accountId a = v
    · have htr : (accountId a).truthy = true := by rw [heq]; exact hv
      have hcont : seen.contains (accountId a) = true := by rw [heq]; exact hseen
      rw [if_pos (by rw [htr, hcont]; rfl)]
      exact ih seen v hv hseen
    · have hne : (accountId a == v) = false := beq_eq_false_iff_ne.mpr heq
      split
      · exact ih seen v hv hseen
      · split
        · rw [List.filter_cons_of_neg (by simp [hne])]
          exact ih _ v hv (by rw [List.contains_cons, hseen, Bool.or_true])
        · rw [List.filter_cons_of_neg (by simp [hne])]
          exact ih seen v hv hseen

theorem dedupAccounts_filter_first : ∀ (seen l : List JVal) (v : JVal),
    v.truthy = true → seen.contains v = false →
    (dedupAccounts seen l).filter (fun r => accountId r == v) =
    (l.filter (fun r => accountId r == v)).take 1 := by
  intro seen l
  induction l generalizing seen with
  | nil => simp [dedupAccounts]
  | cons a rest ih =>
    intro v hv hseen
    rw [dedupAccounts]
    by_cases heq : accountId a = v
    · have htr : (accountId a).truthy = true := by rw [heq]; exact hv
      have hcont : seen.contains (accountId a) = false := by rw [heq]; exact hseen
      rw [if_neg (by rw [htr, hcont]; decide), if_pos htr]
      have hbeq : (accountId a == v) = true := beq_iff_eq.mpr heq
      rw [List.filter_cons_of_pos (by simp [hbeq]),
        List.filter_cons_of_pos (by simp [hbeq])]
      rw [dedupAccounts_filter_seen _ rest v hv
        (by rw [heq, List.contains_cons]; simp)]
      simp
    · have hne : (accountId a == v) = false := beq_eq_false_iff_ne.mpr heq
      have hne₂ : (v == accountId a) = false :=
        beq_eq_false_iff_ne.mpr fun h => heq h.symm
      split
      · rw [List.filter_cons_of_neg (by simp [hne])]
        exact ih seen v hv hseen
      · split
        · rw [List.filter_cons_of_neg (by simp [hne]),
            List.filter_cons_of_neg (by simp [hne])]
          exact ih _ v hv (by rw [List.contains_cons, hseen, hne₂]; rfl)
        · rw [List.filter_cons_of_neg (by simp [hne]),
            List.filter_cons_of_neg (by simp [hne])]
          exact ih seen v hv hseen

/-! ## Envelope frame lemmas -/

theorem objGet?_objSet_self (kvs : Params) (k : String) (v : JVal) :
    objGet? (objSet (.obj kvs) k v) k = some v := by
  simp only [objSet, objGet?]
  exact lookup_pset_self kvs k v

theorem objGet?_objSet_ne (kvs : Params) (k k₂ : String) (v : JVal) (h : k₂ ≠ k) :
    objGet? (objSet (.obj kvs) k v) k₂ = objGet? (.obj kvs) k₂ := by
  simp only [objSet, objGet?]
  exact lookup_pset_ne kvs k k₂ v h

theorem obj_of_objGet?_isSome {Y : JVal} {k : String} {w : JVal}
    (h : objGet? Y k = some w) : ∃ kvs, Y = JVal.obj kvs := by
  cases Y <;> simp [objGet?] at h <;> exact ⟨_, rfl⟩

theorem objGet?_stripNextPrev_ne (Y : JVal) (k : String) (h : k ≠ "paging") :
    objGet? (stripNextPrev Y) k = objGet? Y k := by
  rw [stripNextPrev]
  cases hp : objGet? Y "paging" with
  | none => rfl
  | some w =>
    obtain ⟨kvs, hY⟩ := obj_of_objGet?_isSome hp
    subst hY
    cases w with
    | obj pkvs => exact objGet?_objSet_ne kvs "paging" k _ h
    | null => rfl
    | bool b => rfl
    | num n => rfl
    | str s => rfl
    | arr xs => rfl

theorem stripNextPrev_paging {Y : JVal} {pkvs : Params}
    (hp : objGet? Y "paging" = some (.obj pkvs)) :
    objGet? (stripNextPrev Y) "paging" =
      some (.obj (removeKey (removeKey pkvs "next") "previous")) := by
  obtain ⟨kvs, hY⟩ := obj_of_objGet?_isSome hp
  subst hY
  rw [stripNextPrev, hp]
  exact objGet?_objSet_self kvs "paging" _

theorem removeKey_map_fst_sublist (ps : Params) (k : String) :
    List.Sublist ((removeKey ps k).map Prod.fst) (ps.map Prod.fst) := by
  induction ps with
  | nil => simp [removeKey]
  | cons kv rest ih =>
    obtain ⟨k₁, v₁⟩ := kv
    rw [removeKey]
    split
    · exact List.sublist_cons_self k₁ (rest.map Prod.fst)
    · exact List.Sublist.cons₂ k₁ ih

theorem stripped_paging_lookups (pkvs : Params)
    (hnd : (pkvs.map Prod.fst).Nodup) :
    (removeKey (removeKey pkvs "next") "previous").lookup "next" = none ∧
    (removeKey (removeKey pkvs "next") "previous").lookup "previous" = none ∧
    (∀ k, k ≠ "next" → k ≠ "previous" →
      (removeKey (removeKey pkvs "next") "previous").lookup k = pkvs.lookup k) := by
  refine ⟨?_, ?_, ?_⟩
  · rw [lookup_removeKey_ne _ "previous" "next" (by decide)]
    exact lookup_removeKey_self pkvs "next" hnd
  · exact lookup_removeKey_self _ "previous"
      (hnd.sublist (removeKey_map_fst_sublist pkvs "next"))
  · intro k h₁ h₂
    rw [lookup_removeKey_ne _ "previous" k h₂, lookup_removeKey_ne _ "next" k h₁]

/-! ## Claim C1: full pagination drain -/

/-- Claim C1 (amended): over a finite chain in which the first page and every
page but the last carry a `paging.next` URL, `get_adaccount_insights`
returns an envelope whose `data` is the plain concatenation, in fetch
order, of every page's list-shaped `data` (non-list `data` contributes
nothing), while `list_ad_accounts` returns that concatenation
de-duplicated by truthy `id` (first occurrence wins); in both, the
envelope's `paging` object retains its other keys but contains neither
`next` nor `previous`. -/
theorem claim_C1 (env : EnvCtx) (tok : JVal) (cc da : Option JVal) :
    (∀ (api : String → Params → Except Err JVal) (pagFetch : JVal → Except Err JVal)
       (fuel : Nat) (aid : String) (a : InsightsArgs) (prms : Params)
       (initial : JVal) (ikvs pkvs : Params) (nxt₀ : JVal) (pages : List JVal),
      pyStrip aid ≠ "" →
      build_insights_params [("access_token", tok)] a = .ok prms →
      api (FB_GRAPH_URL ++ "/" ++ normalize_core aid ++ "/insights") prms = .ok initial →
      initial = .obj ikvs →
      pageNext initial = .ok nxt₀ →
      PageChain pagFetch nxt₀ pages →
      pages.length ≤ fuel →
      objGet? initial "paging" = some (.obj pkvs) →
      (pkvs.map Prod.fst).Nodup →
      ∃ res, get_adaccount_insights env api pagFetch fuel ⟨some tok, cc, da⟩ (.str aid) a =
          .ok (res, ⟨some tok, cc, da⟩) ∧
        objGet? res "data" =
          some (.arr (pageData initial ++ (pages.map pageData).flatten)) ∧
        ∃ qkvs, objGet? res "paging" = some (.obj qkvs) ∧
          qkvs.lookup "next" = none ∧ qkvs.lookup "previous" = none) ∧
    (∀ (api : String → Params → Except Err JVal) (pagFetch : JVal → Except Err JVal)
       (fuel : Nat) (result : JVal) (skvs pkvs : Params)
       (first : List JVal) (nxt₀ : JVal) (pages : List JVal),
      api (FB_GRAPH_URL ++ "/me")
        [("access_token", tok), ("fields", .str "adaccounts\x7bname\x7d")] = .ok result →
      objGet? result "adaccounts" = some (.obj skvs) →
      skvs.lookup "data" = some (.arr first) →
      pageNext (.obj skvs) = .ok nxt₀ →
      PageChain pagFetch nxt₀ pages →
      pages.length ≤ fuel →
      skvs.lookup "paging" = some (.obj pkvs) →
      (pkvs.map Prod.fst).Nodup →
      ∃ resTop sec, list_ad_accounts env api pagFetch fuel ⟨some tok, cc, da⟩ =
          .ok (resTop, ⟨some tok, cc, da⟩) ∧
        objGet? resTop "adaccounts" = some sec ∧
        objGet? sec "data" =
          some (.arr (dedupAccounts [] (first ++ (pages.map pageData).flatten))) ∧
        ∃ qkvs, objGet? sec "paging" = some (.obj qkvs) ∧
          qkvs.lookup "next" = none ∧ qkvs.lookup "previous" = none) := by
  constructor
  · intro api pagFetch fuel aid a prms initial ikvs pkvs nxt₀ pages
      haid hbuild hapi hikvs hnxt hchain hfuel hpag hnd
    refine ⟨stripNextPrev (objSet initial "data"
      (.arr (pageData initial ++ (pages.map pageData).flatten))), ?_, ?_, ?_⟩
    · exact get_adaccount_insights_run env api pagFetch fuel tok cc da aid a prms
        initial ikvs nxt₀ pages haid hbuild hapi hikvs hnxt hchain hfuel
    · rw [objGet?_stripNextPrev_ne _ "data" (by decide)]
      subst hikvs
      exact objGet?_objSet_self ikvs "data" _
    · subst hikvs
      have hpag₂ : objGet? (objSet (.obj ikvs) "data"
          (.arr (pageData (.obj ikvs) ++ (pages.map pageData).flatten))) "paging" =
          some (.obj pkvs) := by
        rw [objGet?_objSet_ne _ "data" "paging" _ (by decide)]
        exact hpag
      obtain ⟨h₁, h₂, _⟩ := stripped_paging_lookups pkvs hnd
      exact ⟨_, stripNextPrev_paging hpag₂, h₁, h₂⟩
  · intro api pagFetch fuel result skvs pkvs first nxt₀ pages
      hapi hsec hdata hnxt hchain hfuel hpag hnd
    have hres : ∃ rkvs, result = JVal.obj rkvs := obj_of_objGet?_isSome hsec
    obtain ⟨rkvs, hrk⟩ := hres
    refine ⟨objSet result "adaccounts" (stripNextPrev (objSet (.obj skvs) "data"
        (.arr (dedupAccounts [] (first ++ (pages.map pageData).flatten))))),
      stripNextPrev (objSet (.obj skvs) "data"
        (.arr (dedupAccounts [] (first ++ (pages.map pageData).flatten)))),
      ?_, ?_, ?_, ?_⟩
    · exact list_ad_accounts_run env api pagFetch fuel tok cc da result skvs
        first nxt₀ pages hapi hsec hdata hnxt hchain hfuel
    · subst hrk
      exact objGet?_objSet_self rkvs "adaccounts" _
    · rw [objGet?_stripNextPrev_ne _ "data" (by decide)]
      exact objGet?_objSet_self skvs "data" _
    · have hpag₂ : objGet? (objSet (.obj skvs) "data"
          (.arr (dedupAccounts [] (first ++ (pages.map pageData).flatten)))) "paging" =
          some (.obj pkvs) := by
        rw [objGet?_objSet_ne _ "data" "paging" _ (by decide)]
        exact hpag
      obtain ⟨h₁, h₂, _⟩ := stripped_paging_lookups pkvs hnd
      exact ⟨_, stripNextPrev_paging hpag₂, h₁, h₂⟩

/-- Counterexample for C1 as frozen: a two-page `list_ad_accounts` run whose
pages repeat one account id.  The concatenation has three records; the tool
returns a single de-duplicated record, so the returned `data` does not equal
the concatenation of the pages' `data`. -/
theorem claim_C1_counterexample :
    list_ad_accounts ⟨[], fun _ => none, fun _ => none⟩
      (fun _ _ => .ok (.obj [("adaccounts", .obj
        [("data", .arr [.obj [("id", .str "act_1"), ("name", .str "A")],
                        .obj [("id", .str "act_1"), ("name", .str "A")]]),
         ("paging", .obj [("next", .str "u2"),
           ("cursors", .obj [("after", .str "c1")])])])]))
      (fun _ => .ok (.obj [("data", .arr [.obj [("id", .str "act_1"),
        ("name", .str "A")]]), ("paging", .obj [])]))
      2 ⟨some (.str "T"), none, none⟩ =
      .ok (.obj [("adaccounts", .obj
        [("data", .arr [.obj [("id", .str "act_1"), ("name", .str "A")]]),
         ("paging", .obj [("cursors", .obj [("after", .str "c1")])])])],
        ⟨some (.str "T"), none, none⟩) ∧
    ([JVal.obj [("id", .str "act_1"), ("name", .str "A")]] : List JVal) ≠
      [.obj [("id", .str "act_1"), ("name", .str "A")],
       .obj [("id", .str "act_1"), ("name", .str "A")]] ++
      [.obj [("id", .str "act_1"), ("name", .str "A")]] := by
  constructor
  · rfl
  · intro h
    have := congrArg List.length h
    simp at this

/-- Witness for C1 (amended) at a concrete 3-page chain: pages 1 and 2 carry
`paging.next`, page 3 carries none; the insights drain concatenates, the
account listing de-duplicates a repeated id, and both strip the cursors. -/
theorem claim_C1_witness :
    (∃ res, get_adaccount_insights ⟨[], fun _ => none, fun _ => none⟩
        (fun _ _ => .ok (.obj [("data", .arr [.obj [("impressions", .num 1)]]),
          ("paging", .obj [("next", .str "u2"),
            ("cursors", .obj [("before", .str "b")])])]))
        (fun u => if u == JVal.str "u2" then
            .ok (.obj [("data", .arr [.obj [("impressions", .num 2)]]),
              ("paging", .obj [("next", .str "u3")])])
          else if u == JVal.str "u3" then
            .ok (.obj [("data", .arr [.obj [("impressions", .num 3)]]),
              ("paging", .obj [])])
          else .error .httpError)
        2 ⟨some (.str "T"), none, none⟩ (.str "act_5")
        { defaultInsightsToolArgs with level := .str "account" } =
        .ok (res, ⟨some (.str "T"), none, none⟩) ∧
      objGet? res "data" = some (.arr [.obj [("impressions", .num 1)],
        .obj [("impressions", .num 2)], .obj [("impressions", .num 3)]]) ∧
      ∃ qkvs, objGet? res "paging" = some (.obj qkvs) ∧
        qkvs.lookup "next" = none ∧ qkvs.lookup "previous" = none) ∧
    (∃ resTop sec, list_ad_accounts ⟨[], fun _ => none, fun _ => none⟩
        (fun _ _ => .ok (.obj [("adaccounts", .obj
          [("data", .arr [.obj [("id", .str "act_7"), ("name", .str "X")]]),
           ("paging", .obj [("next", .str "v2"),
             ("cursors", .obj [("after", .str "c")])])])]))
        (fun u => if u == JVal.str "v2" then
            .ok (.obj [("data", .arr [.obj [("id", .str "act_8"), ("name", .str "Y")]]),
              ("paging", .obj [("next", .str "v3")])])
          else if u == JVal.str "v3" then
            .ok (.obj [("data", .arr [.obj [("id", .str "act_7"), ("name", .str "X")]]),
              ("paging", .obj [])])
          else .error .httpError)
        2 ⟨some (.str "T"), none, none⟩ =
        .ok (resTop, ⟨some (.str "T"), none, none⟩) ∧
      objGet? resTop "adaccounts" = some sec ∧
      objGet? sec "data" = some (.arr [.obj [("id", .str "act_7"), ("name", .str "X")],
        .obj [("id", .str "act_8"), ("name", .str "Y")]]) ∧
      ∃ qkvs, objGet? sec "paging" = some (.obj qkvs) ∧
        qkvs.lookup "next" = none ∧ qkvs.lookup "previous" = none) := by
  constructor
  · have happ := (claim_C1 ⟨[], fun _ => none, fun _ => none⟩ (.str "T") none none).1
      (fun _ _ => .ok (.obj [("data", .arr [.obj [("impressions", .num 1)]]),
        ("paging", .obj [("next", .str "u2"),
          ("cursors", .obj [("before", .str "b")])])]))
      (fun u => if u == JVal.str "u2" then
          .ok (.obj [("data", .arr [.obj [("impressions", .num 2)]]),
            ("paging", .obj [("next", .str "u3")])])
        else if u == JVal.str "u3" then
          .ok (.obj [("data", .arr [.obj [("impressions", .num 3)]]),
            ("paging", .obj [])])
        else .error .httpError)
      2 "act_5" { defaultInsightsToolArgs with level := .str "account" }
      [("access_token", JVal.str "T"), ("level", JVal.str "account"),
       ("date_preset", JVal.str "last_30d"),
       ("use_unified_attribution_setting", JVal.str "true")]
      (.obj [("data", .arr [.obj [("impressions", .num 1)]]),
        ("paging", .obj [("next", .str "u2"),
          ("cursors", .obj [("before", .str "b")])])])
      [("data", .arr [.obj [("impressions", .num 1)]]),
       ("paging", .obj [("next", .str "u2"),
         ("cursors", .obj [("before", .str "b")])])]
      [("next", .str "u2"), ("cursors", .obj [("before", .str "b")])]
      (.str "u2")
      [.obj [("data", .arr [.obj [("impressions", .num 2)]]),
         ("paging", .obj [("next", .str "u3")])],
       .obj [("data", .arr [.obj [("impressions", .num 3)]]), ("paging", .obj [])]]
      (by decide) rfl rfl rfl rfl
      (.step _ _ (.str "u3") _ (by decide) rfl rfl
        (.step _ _ .null _ (by decide) rfl rfl (.last _ (by decide))))
      (by decide) rfl (by decide)
    exact happ
  · have happ := (claim_C1 ⟨[], fun _ => none, fun _ => none⟩ (.str "T") none none).2
      (fun _ _ => .ok (.obj [("adaccounts", .obj
        [("data", .arr [.obj [("id", .str "act_7"), ("name", .str "X")]]),
         ("paging", .obj [("next", .str "v2"),
           ("cursors", .obj [("after", .str "c")])])])]))
      (fun u => if u == JVal.str "v2" then
          .ok (.obj [("data", .arr [.obj [("id", .str "act_8"), ("name", .str "Y")]]),
            ("paging", .obj [("next", .str "v3")])])
        else if u == JVal.str "v3" then
          .ok (.obj [("data", .arr [.obj [("id", .str "act_7"), ("name", .str "X")]]),
            ("paging", .obj [])])
        else .error .httpError)
      2
      (.obj [("adaccounts", .obj
        [("data", .arr [.obj [("id", .str "act_7"), ("name", .str "X")]]),
         ("paging", .obj [("next", .str "v2"),
           ("cursors", .obj [("after", .str "c")])])])])
      [("data", .arr [.obj [("id", .str "act_7"), ("name", .str "X")]]),
       ("paging", .obj [("next", .str "v2"), ("cursors", .obj [("after", .str "c")])])]
      [("next", .str "v2"), ("cursors", .obj [("after", .str "c")])]
      [.obj [("id", .str "act_7"), ("name", .str "X")]]
      (.str "v2")
      [.obj [("data", .arr [.obj [("id", .str "act_8"), ("name", .str "Y")]]),
         ("paging", .obj [("next", .str "v3")])],
       .obj [("data", .arr [.obj [("id", .str "act_7"), ("name", .str "X")]]),
         ("paging", .obj [])]]
      rfl rfl rfl rfl
      (.step _ _ (.str "v3") _ (by decide) rfl rfl
        (.step _ _ .null _ (by decide) rfl rfl (.last _ (by decide))))
      (by decide) rfl (by decide)
    exact happ

/-! ## Claim C9: de-duplication in `list_ad_accounts` -/

/-- Claim C9 (amended): in the list returned by `list_ad_accounts`, for every
truthy identifier value, the surviving records with that id are exactly the
first of its occurrences among the drained records (`filter` equals the
one-element `take 1` of the original filter); records with falsy or missing
identifiers are all kept; the surviving records form a sublist of the
drained records, so the fetch order is preserved; and the other draining
tool, `get_adaccount_insights`, performs no de-duplication — its `data` is
the plain concatenation, duplicates included. -/
theorem claim_C9 (env : EnvCtx) (tok : JVal) (cc da : Option JVal) :
    (∀ (api : String → Params → Except Err JVal) (pagFetch : JVal → Except Err JVal)
       (fuel : Nat) (result : JVal) (skvs : Params)
       (first : List JVal) (nxt₀ : JVal) (pages : List JVal),
      api (FB_GRAPH_URL ++ "/me")
        [("access_token", tok), ("fields", .str "adaccounts\x7bname\x7d")] = .ok result →
      objGet? result "adaccounts" = some (.obj skvs) →
      skvs.lookup "data" = some (.arr first) →
      pageNext (.obj skvs) = .ok nxt₀ →
      PageChain pagFetch nxt₀ pages →
      pages.length ≤ fuel →
      ∃ resTop sec, list_ad_accounts env api pagFetch fuel ⟨some tok, cc, da⟩ =
          .ok (resTop, ⟨some tok, cc, da⟩) ∧
        objGet? resTop "adaccounts" = some sec ∧
        objGet? sec "data" = some (.arr
          (dedupAccounts [] (first ++ (pages.map pageData).flatten))) ∧
        List.Sublist (dedupAccounts [] (first ++ (pages.map pageData).flatten))
          (first ++ (pages.map pageData).flatten) ∧
        (∀ v : JVal, v.truthy = true →
          (dedupAccounts [] (first ++ (pages.map pageData).flatten)).filter
            (fun r => accountId r == v) =
          ((first ++ (pages.map pageData).flatten).filter
            (fun r => accountId r == v)).take 1) ∧
        ((dedupAccounts [] (first ++ (pages.map pageData).flatten)).filter
            (fun r => !(accountId r).truthy) =
          (first ++ (pages.map pageData).flatten).filter
            (fun r => !(accountId r).truthy))) ∧
    (∀ (api : String → Params → Except Err JVal) (pagFetch : JVal → Except Err JVal)
       (fuel : Nat) (aid : String) (a : InsightsArgs) (prms : Params)
       (initial : JVal) (ikvs : Params) (nxt₀ : JVal) (pages : List JVal),
      pyStrip aid ≠ "" →
      build_insights_params [("access_token", tok)] a = .ok prms →
      api (FB_GRAPH_URL ++ "/" ++ normalize_core aid ++ "/insights") prms = .ok initial →
      initial = .obj ikvs →
      pageNext initial = .ok nxt₀ →
      PageChain pagFetch nxt₀ pages →
      pages.length ≤ fuel →
      ∃ res, get_adaccount_insights env api pagFetch fuel ⟨some tok, cc, da⟩ (.str aid) a =
          .ok (res, ⟨some tok, cc, da⟩) ∧
        objGet? res "data" =
          some (.arr (pageData initial ++ (pages.map pageData).flatten))) := by
  constructor
  · intro api pagFetch fuel result skvs first nxt₀ pages
      hapi hsec hdata hnxt hchain hfuel
    obtain ⟨rkvs, hrk⟩ := obj_of_objGet?_isSome hsec
    refine ⟨objSet result "adaccounts" (stripNextPrev (objSet (.obj skvs) "data"
        (.arr (dedupAccounts [] (first ++ (pages.map pageData).flatten))))),
      stripNextPrev (objSet (.obj skvs) "data"
        (.arr (dedupAccounts [] (first ++ (pages.map pageData).flatten)))),
      ?_, ?_, ?_, ?_, ?_, ?_⟩
    · exact list_ad_accounts_run env api pagFetch fuel tok cc da result skvs
        first nxt₀ pages hapi hsec hdata hnxt hchain hfuel
    · subst hrk
      exact objGet?_objSet_self rkvs "adaccounts" _
    · rw [objGet?_stripNextPrev_ne _ "data" (by decide)]
      exact objGet?_objSet_self skvs "data" _
    · exact dedupAccounts_sublist [] _
    · intro v hv
      exact dedupAccounts_filter_first [] _ v hv rfl
    · exact dedupAccounts_filter_falsy [] _
  · intro api pagFetch fuel aid a prms initial ikvs nxt₀ pages
      haid hbuild hapi hikvs hnxt hchain hfuel
    refine ⟨stripNextPrev (objSet initial "data"
      (.arr (pageData initial ++ (pages.map pageData).flatten))), ?_, ?_⟩
    · exact get_adaccount_insights_run env api pagFetch fuel tok cc da aid a prms
        initial ikvs nxt₀ pages haid hbuild hapi hikvs hnxt hchain hfuel
    · rw [objGet?_stripNextPrev_ne _ "data" (by decide)]
      subst hikvs
      exact objGet?_objSet_self ikvs "data" _

/-- Counterexample for C9 as frozen: a drained account list with two records
whose `id` is the empty string.  That identifier value occurs among the
drained records, yet both records survive — not exactly one. -/
theorem claim_C9_counterexample :
    list_ad_accounts ⟨[], fun _ => none, fun _ => none⟩
      (fun _ _ => .ok (.obj [("adaccounts", .obj
        [("data", .arr [.obj [("id", .str ""), ("name", .str "B")],
                        .obj [("id", .str ""), ("name", .str "B")]]),
         ("paging", .obj [])])]))
      (fun _ => .error .httpError)
      1 ⟨some (.str "T"), none, none⟩ =
      .ok (.obj [("adaccounts", .obj
        [("data", .arr [.obj [("id", .str ""), ("name", .str "B")],
                        .obj [("id", .str ""), ("name", .str "B")]]),
         ("paging", .obj [])])],
        ⟨some (.str "T"), none, none⟩) ∧
    (([JVal.obj [("id", .str ""), ("name", .str "B")],
       JVal.obj [("id", .str ""), ("name", .str "B")]].filter
        (fun r => accountId r == JVal.str "")).length ≠ 1) := by
  exact ⟨rfl, by decide⟩

/-- Witness for C9 (amended): a drained list `[A, B, A]` with a repeated
truthy id keeps `[A, B]` — one survivor for the repeated id, at its first
position, and every falsy-id record (none here) kept. -/
theorem claim_C9_witness :
    list_ad_accounts ⟨[], fun _ => none, fun _ => none⟩
      (fun _ _ => .ok (.obj [("adaccounts", .obj
        [("data", .arr [.obj [("id", .str "act_7"), ("name", .str "X")],
                        .obj [("id", .str "act_8"), ("name", .str "Y")],
                        .obj [("id", .str "act_7"), ("name", .str "X")]]),
         ("paging", .obj [])])]))
      (fun _ => .error .httpError)
      0 ⟨some (.str "T"), none, none⟩ =
      .ok (.obj [("adaccounts", .obj
        [("data", .arr [.obj [("id", .str "act_7"), ("name", .str "X")],
                        .obj [("id", .str "act_8"), ("name", .str "Y")]]),
         ("paging", .obj [])])],
        ⟨some (.str "T"), none, none⟩) ∧
    (dedupAccounts [] [.obj [("id", .str "act_7"), ("name", .str "X")],
        .obj [("id", .str "act_8"), ("name", .str "Y")],
        .obj [("id", .str "act_7"), ("name", .str "X")]]).filter
      (fun r => accountId r == JVal.str "act_7") =
      ([JVal.obj [("id", .str "act_7"), ("name", .str "X")],
        JVal.obj [("id", .str "act_8"), ("name", .str "Y")],
        JVal.obj [("id", .str "act_7"), ("name", .str "X")]].filter
          (fun r => accountId r == JVal.str "act_7")).take 1 ∧
    (dedupAccounts [] [.obj [("id", .str "act_7"), ("name", .str "X")],
        .obj [("id", .str "act_8"), ("name", .str "Y")],
        .obj [("id", .str "act_7"), ("name", .str "X")]]).filter
      (fun r => !(accountId r).truthy) =
      [JVal.obj [("id", .str "act_7"), ("name", .str "X")],
       JVal.obj [("id", .str "act_8"), ("name", .str "Y")],
       JVal.obj [("id", .str "act_7"), ("name", .str "X")]].filter
        (fun r => !(accountId r).truthy) := by
  obtain ⟨resTop, sec, h₁, h₂, h₃, h₄, h₅, h₆⟩ :=
    (claim_C9 ⟨[], fun _ => none, fun _ => none⟩ (.str "T") none none).1
      (fun _ _ => .ok (.obj [("adaccounts", .obj
        [("data", .arr [.obj [("id", .str "act_7"), ("name", .str "X")],
                        .obj [("id", .str "act_8"), ("name", .str "Y")],
                        .obj [("id", .str "act_7"), ("name", .str "X")]]),
         ("paging", .obj [])])]))
      (fun _ => .error .httpError) 0
      (.obj [("adaccounts", .obj
        [("data", .arr [.obj [("id", .str "act_7"), ("name", .str "X")],
                        .obj [("id", .str "act_8"), ("name", .str "Y")],
                        .obj [("id", .str "act_7"), ("name", .str "X")]]),
         ("paging", .obj [])])])
      [("data", .arr [.obj [("id", .str "act_7"), ("name", .str "X")],
                      .obj [("id", .str "act_8"), ("name", .str "Y")],
                      .obj [("id", .str "act_7"), ("name", .str "X")]]),
       ("paging", .obj [])]
      [.obj [("id", .str "act_7"), ("name", .str "X")],
       .obj [("id", .str "act_8"), ("name", .str "Y")],
       .obj [("id", .str "act_7"), ("name", .str "X")]]
      .null [] rfl rfl rfl rfl (.last _ (by decide)) (by decide)
  exact ⟨rfl, h₅ (.str "act_7") (by decide), h₆⟩

theorem dedupAccounts_keeps_missing_id (rows : List JVal) :
    (dedupAccounts [] rows).filter (fun r => accountId r == JVal.null) =
    rows.filter (fun r => accountId r == JVal.null) := by
  have key : ∀ l : List JVal, l.filter (fun r => accountId r == JVal.null) =
      (l.filter (fun r => !(accountId r).truthy)).filter
        (fun r => accountId r == JVal.null) := by
    intro l
    rw [List.filter_filter]
    apply List.filter_congr
    intro r _
    cases hq : (accountId r == JVal.null) with
    | false => simp
    | true =>
      have hnull : accountId r = JVal.null := eq_of_beq hq
      simp [hnull, JVal.truthy]
  rw [key (dedupAccounts [] rows), dedupAccounts_filter_falsy, ← key rows]

/-! ## Claim C10: draining leaves the rest of the envelope untouched -/

/-- Claim C10: during draining, `get_adaccount_insights` returns every
first-page key other than `data` and `paging` with its original value, and
inside `paging` every key other than `next`/`previous` (e.g. `cursors`)
keeps its value; `list_ad_accounts` likewise preserves all top-level keys
other than `adaccounts`, all envelope keys other than `data`/`paging`, and
all `paging` keys other than the cursors; records with a falsy or missing
`id` (in particular, records lacking an id field) are always kept by the
de-duplication, in full multiplicity. -/
theorem claim_C10 (env : EnvCtx) (tok : JVal) (cc da : Option JVal) :
    (∀ (api : String → Params → Except Err JVal) (pagFetch : JVal → Except Err JVal)
       (fuel : Nat) (aid : String) (a : InsightsArgs) (prms : Params)
       (initial : JVal) (ikvs pkvs : Params) (nxt₀ : JVal) (pages : List JVal),
      pyStrip aid ≠ "" →
      build_insights_params [("access_token", tok)] a = .ok prms →
      api (FB_GRAPH_URL ++ "/" ++ normalize_core aid ++ "/insights") prms = .ok initial →
      initial = .obj ikvs →
      pageNext initial = .ok nxt₀ →
      PageChain pagFetch nxt₀ pages →
      pages.length ≤ fuel →
      objGet? initial "paging" = some (.obj pkvs) →
      (pkvs.map Prod.fst).Nodup →
      ∃ res, get_adaccount_insights env api pagFetch fuel ⟨some tok, cc, da⟩ (.str aid) a =
          .ok (res, ⟨some tok, cc, da⟩) ∧
        (∀ k, k ≠ "data" → k ≠ "paging" → objGet? res k = objGet? initial k) ∧
        ∃ qkvs, objGet? res "paging" = some (.obj qkvs) ∧
          (∀ k, k ≠ "next" → k ≠ "previous" → qkvs.lookup k = pkvs.lookup k)) ∧
    (∀ (api : String → Params → Except Err JVal) (pagFetch : JVal → Except Err JVal)
       (fuel : Nat) (result : JVal) (skvs pkvs : Params)
       (first : List JVal) (nxt₀ : JVal) (pages : List JVal),
      api (FB_GRAPH_URL ++ "/me")
        [("access_token", tok), ("fields", .str "adaccounts\x7bname\x7d")] = .ok result →
      objGet? result "adaccounts" = some (.obj skvs) →
      skvs.lookup "data" = some (.arr first) →
      pageNext (.obj skvs) = .ok nxt₀ →
      PageChain pagFetch nxt₀ pages →
      pages.length ≤ fuel →
      skvs.lookup "paging" = some (.obj pkvs) →
      (pkvs.map Prod.fst).Nodup →
      ∃ resTop sec, list_ad_accounts env api pagFetch fuel ⟨some tok, cc, da⟩ =
          .ok (resTop, ⟨some tok, cc, da⟩) ∧
        objGet? resTop "adaccounts" = some sec ∧
        (∀ k, k ≠ "adaccounts" → objGet? resTop k = objGet? result k) ∧
        (∀ k, k ≠ "data" → k ≠ "paging" → objGet? sec k = objGet? (.obj skvs) k) ∧
        ∃ qkvs, objGet? sec "paging" = some (.obj qkvs) ∧
          (∀ k, k ≠ "next" → k ≠ "previous" → qkvs.lookup k = pkvs.lookup k)) ∧
    (∀ rows : List JVal,
      (dedupAccounts [] rows).filter (fun r => accountId r == JVal.null) =
        rows.filter (fun r => accountId r == JVal.null) ∧
      (dedupAccounts [] rows).filter (fun r => !(accountId r).truthy) =
        rows.filter (fun r => !(accountId r).truthy)) := by
  refine ⟨?_, ?_, ?_⟩
  · intro api pagFetch fuel aid a prms initial ikvs pkvs nxt₀ pages
      haid hbuild hapi hikvs hnxt hchain hfuel hpag hnd
    refine ⟨stripNextPrev (objSet initial "data"
      (.arr (pageData initial ++ (pages.map pageData).flatten))), ?_, ?_, ?_⟩
    · exact get_adaccount_insights_run env api pagFetch fuel tok cc da aid a prms
        initial ikvs nxt₀ pages haid hbuild hapi hikvs hnxt hchain hfuel
    · intro k hk₁ hk₂
      rw [objGet?_stripNextPrev_ne _ k hk₂]
      subst hikvs
      exact objGet?_objSet_ne ikvs "data" k _ hk₁
    · subst hikvs
      have hpag₂ : objGet? (objSet (.obj ikvs) "data"
          (.arr (pageData (.obj ikvs) ++ (pages.map pageData).flatten))) "paging" =
          some (.obj pkvs) := by
        rw [objGet?_objSet_ne _ "data" "paging" _ (by decide)]
        exact hpag
      obtain ⟨_, _, h₃⟩ := stripped_paging_lookups pkvs hnd
      exact ⟨_, stripNextPrev_paging hpag₂, h₃⟩
  · intro api pagFetch fuel result skvs pkvs first nxt₀ pages
      hapi hsec hdata hnxt hchain hfuel hpag hnd
    obtain ⟨rkvs, hrk⟩ := obj_of_objGet?_isSome hsec
    refine ⟨objSet result "adaccounts" (stripNextPrev (objSet (.obj skvs) "data"
        (.arr (dedupAccounts [] (first ++ (pages.map pageData).flatten))))),
      stripNextPrev (objSet (.obj skvs) "data"
        (.arr (dedupAccounts [] (first ++ (pages.map pageData).flatten)))),
      ?_, ?_, ?_, ?_, ?_⟩
    · exact list_ad_accounts_run env api pagFetch fuel tok cc da result skvs
        first nxt₀ pages hapi hsec hdata hnxt hchain hfuel
    · subst hrk
      exact objGet?_objSet_self rkvs "adaccounts" _
    · intro k hk
      subst hrk
      exact objGet?_objSet_ne rkvs "adaccounts" k _ hk
    · intro k hk₁ hk₂
      rw [objGet?_stripNextPrev_ne _ k hk₂]
      exact objGet?_objSet_ne skvs "data" k _ hk₁
    · have hpag₂ : objGet? (objSet (.obj skvs) "data"
          (.arr (dedupAccounts [] (first ++ (pages.map pageData).flatten)))) "paging" =
          some (.obj pkvs) := by
        rw [objGet?_objSet_ne _ "data" "paging" _ (by decide)]
        exact hpag
      obtain ⟨_, _, h₃⟩ := stripped_paging_lookups pkvs hnd
      exact ⟨_, stripNextPrev_paging hpag₂, h₃⟩
  · intro rows
    exact ⟨dedupAccounts_keeps_missing_id rows, dedupAccounts_filter_falsy [] rows⟩

/-- Witness for C10: a drained insights envelope keeps its extra `summary`
key and its `paging.cursors`, and de-duplication keeps both copies of a
record lacking an id field. -/
theorem claim_C10_witness :
    get_adaccount_insights ⟨[], fun _ => none, fun _ => none⟩
      (fun _ _ => .ok (.obj [("data", .arr [.obj [("spend", .num 10)]]),
        ("summary", .str "S"),
        ("paging", .obj [("next", .str "w2"),
          ("cursors", .obj [("after", .str "ca")])])]))
      (fun u => if u == JVal.str "w2" then
          .ok (.obj [("data", .arr [.obj [("spend", .num 20)]]), ("paging", .obj [])])
        else .error .httpError)
      1 ⟨some (.str "T"), none, none⟩ (.str "act_9")
      { defaultInsightsToolArgs with level := .str "account" } =
      .ok (.obj [("data", .arr [.obj [("spend", .num 10)], .obj [("spend", .num 20)]]),
        ("summary", .str "S"),
        ("paging", .obj [("cursors", .obj [("after", .str "ca")])])],
        ⟨some (.str "T"), none, none⟩) ∧
    objGet? (.obj [("data", .arr [.obj [("spend", .num 10)], .obj [("spend", .num 20)]]),
      ("summary", .str "S"),
      ("paging", .obj [("cursors", .obj [("after", .str "ca")])])]) "summary" =
      some (.str "S") ∧
    List.lookup "cursors" [("cursors", JVal.obj [("after", .str "ca")])] =
      some (JVal.obj [("after", .str "ca")]) ∧
    (dedupAccounts [] [.obj [("name", .str "noid")],
        .obj [("id", .str "act_3")], .obj [("name", .str "noid")]]).filter
      (fun r => accountId r == JVal.null) =
      [JVal.obj [("name", .str "noid")], JVal.obj [("id", .str "act_3")],
       JVal.obj [("name", .str "noid")]].filter (fun r => accountId r == JVal.null) := by
  obtain ⟨res, h₁, h₂, qkvs, hq₁, hq₂⟩ :=
    (claim_C10 ⟨[], fun _ => none, fun _ => none⟩ (.str "T") none none).1
      (fun _ _ => .ok (.obj [("data", .arr [.obj [("spend", .num 10)]]),
        ("summary", .str "S"),
        ("paging", .obj [("next", .str "w2"),
          ("cursors", .obj [("after", .str "ca")])])]))
      (fun u => if u == JVal.str "w2" then
          .ok (.obj [("data", .arr [.obj [("spend", .num 20)]]), ("paging", .obj [])])
        else .error .httpError)
      1 "act_9" { defaultInsightsToolArgs with level := .str "account" }
      [("access_token", JVal.str "T"), ("level", JVal.str "account"),
       ("date_preset", JVal.str "last_30d"),
       ("use_unified_attribution_setting", JVal.str "true")]
      (.obj [("data", .arr [.obj [("spend", .num 10)]]),
        ("summary", .str "S"),
        ("paging", .obj [("next", .str "w2"),
          ("cursors", .obj [("after", .str "ca")])])])
      [("data", .arr [.obj [("spend", .num 10)]]),
       ("summary", .str "S"),
       ("paging", .obj [("next", .str "w2"),
         ("cursors", .obj [("after", .str "ca")])])]
      [("next", .str "w2"), ("cursors", .obj [("after", .str "ca")])]
      (.str "w2")
      [.obj [("data", .arr [.obj [("spend", .num 20)]]), ("paging", .obj [])]]
      (by decide) rfl rfl rfl rfl
      (.step _ _ .null _ (by decide) rfl rfl (.last _ (by decide)))
      (by decide) rfl (by decide)
  have hres : res = .obj [("data", .arr [.obj [("spend", .num 10)],
      .obj [("spend", .num 20)]]), ("summary", .str "S"),
      ("paging", .obj [("cursors", .obj [("after", .str "ca")])])] := by
    have hcomb := h₁.symm.trans (rfl :
      get_adaccount_insights ⟨[], fun _ => none, fun _ => none⟩
        (fun _ _ => .ok (.obj [("data", .arr [.obj [("spend", .num 10)]]),
          ("summary", .str "S"),
          ("paging", .obj [("next", .str "w2"),
            ("cursors", .obj [("after", .str "ca")])])]))
        (fun u => if u == JVal.str "w2" then
            .ok (.obj [("data", .arr [.obj [("spend", .num 20)]]), ("paging", .obj [])])
          else .error .httpError)
        1 ⟨some (.str "T"), none, none⟩ (.str "act_9")
        { defaultInsightsToolArgs with level := .str "account" } =
        .ok (.obj [("data", .arr [.obj [("spend", .num 10)], .obj [("spend", .num 20)]]),
          ("summary", .str "S"),
          ("paging", .obj [("cursors", .obj [("after", .str "ca")])])],
          ⟨some (.str "T"), none, none⟩))
    injection hcomb with hpair
    injection hpair with hres₂ _
  subst hres
  have hqk : qkvs = [("cursors", JVal.obj [("after", .str "ca")])] := by
    have := hq₁.symm.trans (rfl : objGet?
      (.obj [("data", .arr [.obj [("spend", .num 10)], .obj [("spend", .num 20)]]),
        ("summary", .str "S"),
        ("paging", .obj [("cursors", .obj [("after", .str "ca")])])]) "paging" =
      some (.obj [("cursors", JVal.obj [("after", .str "ca")])]))
    injection this with hsome
    injection hsome with hobj
  subst hqk
  refine ⟨h₁, h₂ "summary" (by decide) (by decide) |>.trans rfl,
    (hq₂ "cursors" (by decide) (by decide)).trans rfl, ?_⟩
  exact ((claim_C10 ⟨[], fun _ => none, fun _ => none⟩ (.str "T") none none).2.2
    [.obj [("name", .str "noid")], .obj [("id", .str "act_3")],
     .obj [("name", .str "noid")]]).1

/-! ## Scenario lemmas for the default-account sources -/

theorem ensure_sources_config (env : EnvCtx) (ft : Option JVal) (cfg : JVal)
    (c : String) (hc₁ : (configCandidates cfg).1 = some c) (hc : pyStrip c ≠ "") :
    ∃ d : JVal, ensure_default_ad_account_from_config_sources env ⟨ft, some cfg, none⟩ =
      .ok (true, ⟨ft, some cfg, some d⟩) ∧
      objGet? d "id" = some (.str (normalize_core c)) := by
  have hcne : c ≠ "" := fun h => hc (by rw [h]; rfl)
  rw [ensure_default_ad_account_from_config_sources]
  simp only [Option.isSome_none, Bool.false_eq_true, if_false, load_config_from_env]
  cases hcc : configCandidates cfg with
  | mk cid cname =>
    rw [hcc] at hc₁
    simp only at hc₁
    subst hc₁
    simp only [Option.isNone_some, Bool.false_eq_true, if_false, Bool.false_and,
      set_default_ad_account, if_neg hc, if_neg hcne]
    cases cname with
    | none =>
      refine ⟨.obj [("id", .str (normalize_core c))], ?_, rfl⟩
      rfl
    | some n =>
      by_cases hn : pyStrip n = ""
      · refine ⟨.obj [("id", .str (normalize_core c))], ?_, rfl⟩
        simp only [if_pos hn]
      · refine ⟨.obj [("id", .str (normalize_core c)),
          ("name", .str (pyStrip n))], ?_, rfl⟩
        simp only [if_neg hn]
        rfl

theorem ensure_sources_envvar (env : EnvCtx) (ft : Option JVal) (cfg : JVal)
    (e : String) (hc₁ : (configCandidates cfg).1 = none)
    (he : env.osenv "FB_DEFAULT_ACT_ID" = some e) (hne : pyStrip e ≠ "") :
    ∃ d : JVal, ensure_default_ad_account_from_config_sources env ⟨ft, some cfg, none⟩ =
      .ok (true, ⟨ft, some cfg, some d⟩) ∧
      objGet? d "id" = some (.str (normalize_core e)) := by
  have hcore : normalize_core (pyStrip e) = normalize_core e := by
    rw [normalize_core, normalize_core, pyStrip_idem e]
  rw [ensure_default_ad_account_from_config_sources]
  simp only [Option.isSome_none, Bool.false_eq_true, if_false, load_config_from_env]
  cases hcc : configCandidates cfg with
  | mk cid cname =>
    rw [hcc] at hc₁
    simp only at hc₁
    subst hc₁
    simp only [Option.isNone_none, if_true, he, if_neg hne, Option.isNone_some,
      Bool.false_eq_true, if_false, Bool.false_and, set_default_ad_account]
    rw [if_neg (by rw [pyStrip_idem e]; exact hne)]
    refine ⟨_, rfl, ?_⟩
    rw [← hcore]
    split
    · split
      · rfl
      · rfl
    · rfl

theorem ensure_sources_cli_novalue (env : EnvCtx) (ft : Option JVal) (cfg : JVal)
    (hc₁ : (configCandidates cfg).1 = none)
    (he : env.osenv "FB_DEFAULT_ACT_ID" = none)
    (hin : env.argv.contains "--default-act-id" = true)
    (hlen : env.argv.length ≤ env.argv.indexOf "--default-act-id" + 1) :
    ensure_default_ad_account_from_config_sources env ⟨ft, some cfg, none⟩ =
      .error (.exceptionErr "--default-act-id argument provided but no value followed it") := by
  rw [ensure_default_ad_account_from_config_sources]
  simp only [Option.isSome_none, Bool.false_eq_true, if_false, load_config_from_env]
  cases hcc : configCandidates cfg with
  | mk cid cname =>
    rw [hcc] at hc₁
    simp only at hc₁
    subst hc₁
    simp only [Option.isNone_none, if_true, he, Bool.true_and, hin, if_true]
    rw [dif_neg (by omega)]

theorem ensure_sources_cli_value (env : EnvCtx) (ft : Option JVal) (cfg : JVal)
    (v : String) (hc₁ : (configCandidates cfg).1 = none)
    (he : env.osenv "FB_DEFAULT_ACT_ID" = none)
    (hin : env.argv.contains "--default-act-id" = true)
    (hlt : env.argv.indexOf "--default-act-id" + 1 < env.argv.length)
    (hv : env.argv.get ⟨env.argv.indexOf "--default-act-id" + 1, hlt⟩ = v)
    (hname : env.argv.contains "--default-act-name" = false)
    (hvs : pyStrip v ≠ "") :
    ∃ d : JVal, ensure_default_ad_account_from_config_sources env ⟨ft, some cfg, none⟩ =
      .ok (true, ⟨ft, some cfg, some d⟩) ∧
      objGet? d "id" = some (.str (normalize_core v)) := by
  have hvne : v ≠ "" := fun h => hvs (by rw [h]; rfl)
  rw [ensure_default_ad_account_from_config_sources]
  simp only [Option.isSome_none, Bool.false_eq_true, if_false, load_config_from_env]
  cases hcc : configCandidates cfg with
  | mk cid cname =>
    rw [hcc] at hc₁
    simp only at hc₁
    subst hc₁
    simp only [Option.isNone_none, if_true, he, Bool.true_and, hin, if_true]
    rw [dif_pos hlt]
    simp only [hname, Bool.false_eq_true, if_false, hv, if_neg hvne,
      set_default_ad_account, if_neg hvs]
    refine ⟨_, rfl, ?_⟩
    split
    · split
      · rfl
      · rfl
    · rfl

theorem ensure_sources_none (env : EnvCtx) (ft : Option JVal) (cfg : JVal)
    (hc₁ : (configCandidates cfg).1 = none)
    (he : env.osenv "FB_DEFAULT_ACT_ID" = none)
    (hin : env.argv.contains "--default-act-id" = false) :
    ensure_default_ad_account_from_config_sources env ⟨ft, some cfg, none⟩ =
      .ok (false, ⟨ft, some cfg, none⟩) := by
  rw [ensure_default_ad_account_from_config_sources]
  simp only [Option.isSome_none, Bool.false_eq_true, if_false, load_config_from_env]
  cases hcc : configCandidates cfg with
  | mk cid cname =>
    rw [hcc] at hc₁
    simp only at hc₁
    subst hc₁
    simp only [Option.isNone_none, if_true, he, hin, Bool.and_false,
      Bool.false_eq_true, if_false]

theorem get_default_of_ensure_some (env : EnvCtx)
    (api : String → Params → Except Err JVal) (ft : Option JVal) (cfg : JVal) (d : JVal)
    (hens : ensure_default_ad_account_from_config_sources env ⟨ft, some cfg, none⟩ =
      .ok (true, ⟨ft, some cfg, some d⟩)) :
    get_default_ad_account env api ⟨ft, some cfg, none⟩ false =
      .ok (d, ⟨ft, some cfg, some d⟩, []) := by
  rw [get_default_ad_account]
  simp only [Bool.false_eq_true, if_false, Option.isNone_none, if_true, hens,
    bind, Except.bind, pure, Except.pure]

theorem get_default_of_ensure_error (env : EnvCtx)
    (api : String → Params → Except Err JVal) (ft : Option JVal) (cfg : JVal) (er : Err)
    (hens : ensure_default_ad_account_from_config_sources env ⟨ft, some cfg, none⟩ =
      .error er) :
    get_default_ad_account env api ⟨ft, some cfg, none⟩ false = .error er := by
  rw [get_default_ad_account]
  simp only [Bool.false_eq_true, if_false, Option.isNone_none, if_true, hens,
    bind, Except.bind, pure, Except.pure]

theorem get_default_remote_ok (env : EnvCtx)
    (api : String → Params → Except Err JVal) (tokv : JVal) (cfg : JVal)
    (result : JVal) (rkvs : Params)
    (hens : ensure_default_ad_account_from_config_sources env
      ⟨some tokv, some cfg, none⟩ = .ok (false, ⟨some tokv, some cfg, none⟩))
    (hapi : api (FB_GRAPH_URL ++ "/me") (defaultAccountParams tokv) = .ok result)
    (hres : result = .obj rkvs)
    (hrid : (remoteResolvedId result).truthy = true)
    (hstrip : pyStrip (pyStr (remoteResolvedId result)) ≠ "") :
    get_default_ad_account env api ⟨some tokv, some cfg, none⟩ false =
      .ok (.obj [("id", .str (normalize_core (pyStr (remoteResolvedId result)))),
                 ("name", remoteFirstName result)],
        ⟨some tokv, some cfg, some (.obj
          [("id", .str (normalize_core (pyStr (remoteResolvedId result)))),
           ("name", remoteFirstName result)])⟩,
        [Call.api (FB_GRAPH_URL ++ "/me") (defaultAccountParams tokv)]) := by
  rw [get_default_ad_account]
  simp only [Bool.false_eq_true, if_false, Option.isNone_none, if_true, hens,
    bind, Except.bind, pure, Except.pure, get_fb_access_token]
  rw [hapi]
  subst hres
  simp only [hrid, if_true, normalize_act_id, if_neg hstrip, bind, Except.bind,
    pure, Except.pure]

theorem get_default_remote_none (env : EnvCtx)
    (api : String → Params → Except Err JVal) (tokv : JVal) (cfg : JVal)
    (result : JVal) (rkvs : Params)
    (hens : ensure_default_ad_account_from_config_sources env
      ⟨some tokv, some cfg, none⟩ = .ok (false, ⟨some tokv, some cfg, none⟩))
    (hapi : api (FB_GRAPH_URL ++ "/me") (defaultAccountParams tokv) = .ok result)
    (hres : result = .obj rkvs)
    (hrid : (remoteResolvedId result).truthy = false) :
    get_default_ad_account env api ⟨some tokv, some cfg, none⟩ false =
      .error (.valueError "Unable to automatically determine a default ad account. Please specify an 'act_id'.") := by
  rw [get_default_ad_account]
  simp only [Bool.false_eq_true, if_false, Option.isNone_none, if_true, hens,
    bind, Except.bind, pure, Except.pure, get_fb_access_token]
  rw [hapi]
  subst hres
  simp only [hrid, Bool.false_eq_true, if_false, bind, Except.bind, pure, Except.pure]

theorem get_default_remote_badid (env : EnvCtx)
    (api : String → Params → Except Err JVal) (tokv : JVal) (cfg : JVal)
    (result : JVal) (rkvs : Params)
    (hens : ensure_default_ad_account_from_config_sources env
      ⟨some tokv, some cfg, none⟩ = .ok (false, ⟨some tokv, some cfg, none⟩))
    (hapi : api (FB_GRAPH_URL ++ "/me") (defaultAccountParams tokv) = .ok result)
    (hres : result = .obj rkvs)
    (hrid : (remoteResolvedId result).truthy = true)
    (hstrip : pyStrip (pyStr (remoteResolvedId result)) = "") :
    get_default_ad_account env api ⟨some tokv, some cfg, none⟩ false =
      .error (.valueError "Ad account ID cannot be empty.") := by
  rw [get_default_ad_account]
  simp only [Bool.false_eq_true, if_false, Option.isNone_none, if_true, hens,
    bind, Except.bind, pure, Except.pure, get_fb_access_token]
  rw [hapi]
  subst hres
  simp only [hrid, if_true, normalize_act_id, if_pos hstrip, bind, Except.bind,
    pure, Except.pure]

/-! ## Claim C3: default ad-account resolution order -/

/-- Claim C3: with no explicit `act_id` and no cached default, resolution
takes the first successful source in strict order — configuration alias
fields, then the `FB_DEFAULT_ACT_ID`/`NAME` environment pair, then the
`--default-act-id` flag (a configuration error if the flag has no following
value), then a remote `limit(1)` query whose id falls back to the
`act_`-prefixed raw `account_id` when the canonical `id` field is absent;
the non-remote sources perform no API call (empty call trace), and under a
successful remote query the `ResolutionError` is raised exactly when the
query yields no id. -/
theorem claim_C3 (env : EnvCtx) (api : String → Params → Except Err JVal)
    (ft : Option JVal) (cfg : JVal) :
    (∀ c : String, (configCandidates cfg).1 = some c → pyStrip c ≠ "" →
      ∃ acc st₂, get_default_ad_account env api ⟨ft, some cfg, none⟩ false =
          .ok (acc, st₂, []) ∧
        objGet? acc "id" = some (.str (normalize_core c)) ∧
        st₂.default_ad_account = some acc) ∧
    (∀ e : String, (configCandidates cfg).1 = none →
      env.osenv "FB_DEFAULT_ACT_ID" = some e → pyStrip e ≠ "" →
      ∃ acc st₂, get_default_ad_account env api ⟨ft, some cfg, none⟩ false =
          .ok (acc, st₂, []) ∧
        objGet? acc "id" = some (.str (normalize_core e)) ∧
        st₂.default_ad_account = some acc) ∧
    ((configCandidates cfg).1 = none →
      env.osenv "FB_DEFAULT_ACT_ID" = none →
      env.argv.contains "--default-act-id" = true →
      env.argv.length ≤ env.argv.indexOf "--default-act-id" + 1 →
      get_default_ad_account env api ⟨ft, some cfg, none⟩ false =
        .error (.exceptionErr "--default-act-id argument provided but no value followed it")) ∧
    (∀ (v : String) (hlt : env.argv.indexOf "--default-act-id" + 1 < env.argv.length),
      (configCandidates cfg).1 = none →
      env.osenv "FB_DEFAULT_ACT_ID" = none →
      env.argv.contains "--default-act-id" = true →
      env.argv.get ⟨env.argv.indexOf "--default-act-id" + 1, hlt⟩ = v →
      env.argv.contains "--default-act-name" = false →
      pyStrip v ≠ "" →
      ∃ acc st₂, get_default_ad_account env api ⟨ft, some cfg, none⟩ false =
          .ok (acc, st₂, []) ∧
        objGet? acc "id" = some (.str (normalize_core v)) ∧
        st₂.default_ad_account = some acc) ∧
    (∀ (tokv result : JVal) (rkvs : Params),
      ft = some tokv →
      (configCandidates cfg).1 = none →
      env.osenv "FB_DEFAULT_ACT_ID" = none →
      env.argv.contains "--default-act-id" = false →
      api (FB_GRAPH_URL ++ "/me") (defaultAccountParams tokv) = .ok result →
      result = .obj rkvs →
      (remoteResolvedId result).truthy = true →
      pyStrip (pyStr (remoteResolvedId result)) ≠ "" →
      get_default_ad_account env api ⟨ft, some cfg, none⟩ false =
        .ok (.obj [("id", .str (normalize_core (pyStr (remoteResolvedId result)))),
                   ("name", remoteFirstName result)],
          ⟨some tokv, some cfg, some (.obj
            [("id", .str (normalize_core (pyStr (remoteResolvedId result)))),
             ("name", remoteFirstName result)])⟩,
          [Call.api (FB_GRAPH_URL ++ "/me") (defaultAccountParams tokv)])) ∧
    (∀ (result : JVal) (fkvs : Params) (aidv : JVal),
      remoteFirstAccount result = some (.obj fkvs) →
      ((fkvs.lookup "id").getD .null).truthy = false →
      (fkvs.lookup "account_id").getD .null = aidv →
      aidv.truthy = true →
      remoteResolvedId result =
        .str (if strStarts (pyStr aidv) "act_" then pyStr aidv
              else "act_" ++ pyStr aidv)) ∧
    (∀ (tokv result : JVal) (rkvs : Params),
      ft = some tokv →
      (configCandidates cfg).1 = none →
      env.osenv "FB_DEFAULT_ACT_ID" = none →
      env.argv.contains "--default-act-id" = false →
      api (FB_GRAPH_URL ++ "/me") (defaultAccountParams tokv) = .ok result →
      result = .obj rkvs →
      (get_default_ad_account env api ⟨ft, some cfg, none⟩ false =
          .error (.valueError "Unable to automatically determine a default ad account. Please specify an 'act_id'.") ↔
        (remoteResolvedId result).truthy = false)) := by
  refine ⟨?_, ?_, ?_, ?_, ?_, ?_, ?_⟩
  · intro c hc₁ hc
    obtain ⟨d, hens, hid⟩ := ensure_sources_config env ft cfg c hc₁ hc
    exact ⟨d, ⟨ft, some cfg, some d⟩,
      get_default_of_ensure_some env api ft cfg d hens, hid, rfl⟩
  · intro e hc₁ he hne
    obtain ⟨d, hens, hid⟩ := ensure_sources_envvar env ft cfg e hc₁ he hne
    exact ⟨d, ⟨ft, some cfg, some d⟩,
      get_default_of_ensure_some env api ft cfg d hens, hid, rfl⟩
  · intro hc₁ he hin hlen
    exact get_default_of_ensure_error env api ft cfg _
      (ensure_sources_cli_novalue env ft cfg hc₁ he hin hlen)
  · intro v hlt hc₁ he hin hv hname hvs
    obtain ⟨d, hens, hid⟩ :=
      ensure_sources_cli_value env ft cfg v hc₁ he hin hlt hv hname hvs
    exact ⟨d, ⟨ft, some cfg, some d⟩,
      get_default_of_ensure_some env api ft cfg d hens, hid, rfl⟩
  · intro tokv result rkvs hft hc₁ he hin hapi hres hrid hstrip
    subst hft
    exact get_default_remote_ok env api tokv cfg result rkvs
      (ensure_sources_none env (some tokv) cfg hc₁ he hin) hapi hres hrid hstrip
  · intro result fkvs aidv hfirst hid haid htr
    rw [remoteResolvedId, hfirst]
    simp only [hid, Bool.false_eq_true, if_false, haid, htr, if_true]
  · intro tokv result rkvs hft hc₁ he hin hapi hres
    subst hft
    have hens := ensure_sources_none env (some tokv) cfg hc₁ he hin
    constructor
    · intro herr
      by_cases hrid : (remoteResolvedId result).truthy = true
      · by_cases hstrip : pyStrip (pyStr (remoteResolvedId result)) = ""
        · rw [get_default_remote_badid env api tokv cfg result rkvs hens hapi hres
            hrid hstrip] at herr
          injection herr with hmsg
          simp at hmsg
        · rw [get_default_remote_ok env api tokv cfg result rkvs hens hapi hres
            hrid hstrip] at herr
          cases herr
      · simpa using hrid
    · intro hrid
      exact get_default_remote_none env api tokv cfg result rkvs hens hapi hres hrid

/-- Witness for C3: a config-alias session resolves with no API call, and a
blank session resolves remotely, constructing the id from a raw numeric
`account_id`. -/
theorem claim_C3_witness :
    (∃ acc st₂, get_default_ad_account
        ⟨[], fun _ => none, fun _ => none⟩
        (fun _ _ => .error .httpError)
        ⟨none, some (.obj [("defaultActId", .str " 77 ")]), none⟩ false =
        .ok (acc, st₂, []) ∧
      objGet? acc "id" = some (.str "act_77") ∧
      st₂.default_ad_account = some acc) ∧
    remoteResolvedId (.obj [("adaccounts", .obj [("data", .arr
      [.obj [("account_id", .num 555), ("name", .str "R")]])])]) =
      .str "act_555" ∧
    get_default_ad_account ⟨[], fun _ => none, fun _ => none⟩
      (fun _ _ => .ok (.obj [("adaccounts", .obj [("data", .arr
        [.obj [("account_id", .num 555), ("name", .str "R")]])])]))
      ⟨some (.str "T"), some (.obj []), none⟩ false =
      .ok (.obj [("id", .str "act_555"), ("name", .str "R")],
        ⟨some (.str "T"), some (.obj []),
         some (.obj [("id", .str "act_555"), ("name", .str "R")])⟩,
        [Call.api (FB_GRAPH_URL ++ "/me") (defaultAccountParams (.str "T"))]) := by
  refine ⟨?_, ?_, ?_⟩
  · obtain ⟨acc, st₂, h₁, h₂, h₃⟩ :=
      (claim_C3 ⟨[], fun _ => none, fun _ => none⟩ (fun _ _ => .error .httpError)
        none (.obj [("defaultActId", .str " 77 ")])).1 "77" (by decide) (by decide)
    exact ⟨acc, st₂, h₁, h₂, h₃⟩
  · exact (claim_C3 ⟨[], fun _ => none, fun _ => none⟩
      (fun _ _ => .ok (.obj [("adaccounts", .obj [("data", .arr
        [.obj [("account_id", .num 555), ("name", .str "R")]])])]))
      (some (.str "T")) (.obj [])).2.2.2.2.2.1
      (.obj [("adaccounts", .obj [("data", .arr
        [.obj [("account_id", .num 555), ("name", .str "R")]])])])
      [("account_id", .num 555), ("name", .str "R")]
      (.num 555) rfl (by decide) rfl (by decide)
  · exact (claim_C3 ⟨[], fun _ => none, fun _ => none⟩
      (fun _ _ => .ok (.obj [("adaccounts", .obj [("data", .arr
        [.obj [("account_id", .num 555), ("name", .str "R")]])])]))
      (some (.str "T")) (.obj [])).2.2.2.2.1
      (.str "T")
      (.obj [("adaccounts", .obj [("data", .arr
        [.obj [("account_id", .num 555), ("name", .str "R")]])])])
      [("adaccounts", .obj [("data", .arr
        [.obj [("account_id", .num 555), ("name", .str "R")]])])]
      rfl (by decide) rfl rfl rfl rfl (by decide) (by decide)
